import Mathlib

/-!
Shallow embedding of the agent layer of `remote-agent-memory`
(`src/agents/orchestrator.py`, `task_decomposer.py`, `relevance_scorer.py`,
`context_builder.py`), together with theorems settling the frozen claims
about that code.

Python strings are modelled by `String`, Python's substring test (`x in s`)
and the literal-alternation regexes of the orchestrator by list/character
scans, Python's stable `list.sort`/`sorted` by an explicit stable insertion
sort, `datetime` values by integer day counts, and Python exceptions by
`Except String`.
-/

namespace Agents

/-- Characters Python's regex treats as word characters (`\w`: letters,
digits, underscore); all texts in this code base are ASCII. -/
def isWordChar (c : Char) : Bool := c.isAlphanum || c == '_'

/-- `matchHere p l`: the character list `p` occurs at the very start of `l`. -/
def matchHere : List Char → List Char → Bool
  | [], _ => true
  | _ :: _, [] => false
  | a :: p, b :: l => a == b && matchHere p l

/-- `hasSub p l`: `p` occurs as a contiguous run somewhere in `l`. -/
def hasSub (p : List Char) : List Char → Bool
  | [] => p.isEmpty
  | b :: l => matchHere p (b :: l) || hasSub p l

/-- Python's substring containment `needle in haystack`. -/
def containsSub (haystack needle : String) : Bool :=
  hasSub needle.toList haystack.toList

/-- Python's `str.lower()`; every text this code handles is ASCII. -/
def strToLower (s : String) : String :=
  ⟨s.data.map Char.toLower⟩

/-- Insert `x` into `l`, walking past every `y` with `le y x`, so that in a
sorted list `x` lands after all elements comparing less-or-equal to it. -/
def insStable (le : α → α → Bool) (x : α) : List α → List α
  | [] => [x]
  | y :: ys => if le y x then y :: insStable le x ys else x :: y :: ys

/-- Stable sort by the boolean comparison `le`.  For a total preorder this
produces the same list as Python's stable `list.sort` / `sorted`. -/
def sortStableBy (le : α → α → Bool) (l : List α) : List α :=
  l.foldl (fun acc x => insStable le x acc) []

/-! ## Orchestrator data model (`orchestrator.py`) -/

/-- A Python value as it appears in the orchestrator's `context` dictionaries. -/
inductive PyVal where
  | str (s : String)
  | int (n : Int)
  | bool (b : Bool)
  | dict (entries : List (String × PyVal))

/-- `AgentType` (orchestrator.py lines 23-31). -/
inductive AgentType where
  | MEMORY_STORE
  | MEMORY_CONTEXT
  | MEMORY_RECALL
  | MEMORY_CONSOLIDATE
  | MEMORY_HEALTH
  | TEST_CONTEXT
  | DEBUG_CONTEXT
deriving DecidableEq

/-- The `.value` string of each `AgentType` member. -/
def AgentType.value : AgentType → String
  | .MEMORY_STORE => "memory-store"
  | .MEMORY_CONTEXT => "memory-context"
  | .MEMORY_RECALL => "memory-recall"
  | .MEMORY_CONSOLIDATE => "memory-consolidate"
  | .MEMORY_HEALTH => "memory-health"
  | .TEST_CONTEXT => "test-context"
  | .DEBUG_CONTEXT => "debug-context"

/-- `TriggerCondition` (orchestrator.py lines 34-43). -/
inductive TriggerCondition where
  | DECISION_MADE
  | ERROR_ENCOUNTERED
  | TASK_STARTED
  | TESTING_NEEDED
  | DEBUG_NEEDED
  | CONTEXT_NEEDED
  | HEALTH_CHECK
  | MAINTENANCE_DUE
deriving DecidableEq

/-- The `.value` string of each `TriggerCondition` member. -/
def TriggerCondition.value : TriggerCondition → String
  | .DECISION_MADE => "decision_made"
  | .ERROR_ENCOUNTERED => "error_encountered"
  | .TASK_STARTED => "task_started"
  | .TESTING_NEEDED => "testing_needed"
  | .DEBUG_NEEDED => "debug_needed"
  | .CONTEXT_NEEDED => "context_needed"
  | .HEALTH_CHECK => "health_check"
  | .MAINTENANCE_DUE => "maintenance_due"

/-- `AgentInvocation` dataclass. -/
structure AgentInvocation where
  agent_type : AgentType
  trigger : TriggerCondition
  context : List (String × PyVal)
  priority : Nat := 1
  dependencies : Option (List AgentType) := none

/-- `AgentResult` dataclass.  `execution_time` is wall-clock seconds in the
source; it is kept as a rational and set to `0` here, since no timed clock is
part of the model. -/
structure AgentResult where
  agent_type : AgentType
  success : Bool
  data : List (String × PyVal)
  execution_time : ℚ
  error_message : Option String := none

/-- The orchestrator's mutable state: the active-agent set and the
append-only history. -/
structure OrchestratorState where
  active_agents : Finset AgentType
  agent_history : List AgentResult

/-! Each `_contains_*` helper of the orchestrator applies `re.search` with a
list of alternation patterns of literal lowercase words to the already
lowercased content, so every pattern is equivalent to "one of these literals
is a substring".  The pattern `failed?` matches the literal `faile` with an
optional trailing `d`; as a substring test it is equivalent to `faile`. -/

/-- One alternation pattern: some alternative occurs as a substring. -/
def matchesAlt (content : String) (alts : List String) : Bool :=
  alts.any (fun a => containsSub content a)

/-- `decision_indicators` of `_contains_decision_content`. -/
def decision_indicators : List (List String) :=
  [["decided", "chosen", "selected", "going with", "will use", "approach is"],
   ["solution", "fix", "resolved", "implemented", "working"],
   ["architecture", "design", "pattern", "strategy"],
   ["learned", "discovered", "found that", "realized"],
   ["successfully", "completed", "finished", "deployed"],
   ["best practice", "recommendation", "should"],
   ["key insight", "important", "critical", "essential"]]

/-- `_contains_decision_content`. -/
def contains_decision_content (content : String) : Bool :=
  decision_indicators.any (matchesAlt content)

/-- `error_indicators` of `_contains_error_content`. -/
def error_indicators : List (List String) :=
  [["error", "exception", "faile", "crash", "bug"],
   ["not working", "broken", "issue", "problem"],
   ["debug", "troubleshoot", "investigate"],
   ["timeout", "connection", "memory leak"],
   ["stacktrace", "traceback", "log shows"]]

/-- `_contains_error_content`. -/
def contains_error_content (content : String) : Bool :=
  error_indicators.any (matchesAlt content)

/-- `task_indicators` of `_contains_task_content`. -/
def task_indicators : List (List String) :=
  [["implement", "create", "build", "develop", "add"],
   ["feature", "function", "component", "module", "system"],
   ["need to", "want to", "going to", "planning to"],
   ["how do i", "how can i", "what\x27s the best way"],
   ["working on", "starting", "beginning"]]

/-- `_contains_task_content`. -/
def contains_task_content (content : String) : Bool :=
  task_indicators.any (matchesAlt content)

/-- `test_indicators` of `_contains_test_content`. -/
def test_indicators : List (List String) :=
  [["test", "testing", "spec", "verify", "validate"],
   ["unit test", "integration test", "e2e test"],
   ["check", "assert", "expect", "should"],
   ["coverage", "test case", "test suite"],
   ["mock", "stub", "fixture"]]

/-- `_contains_test_content`. -/
def contains_test_content (content : String) : Bool :=
  test_indicators.any (matchesAlt content)

/-- `context_indicators` of `_contains_context_request`. -/
def context_indicators : List (List String) :=
  [["similar", "before", "previous", "history"],
   ["have we", "did we", "how did we"],
   ["last time", "previously", "earlier"],
   ["experience", "pattern", "lesson learned"],
   ["best practice", "what worked", "what didn\x27t work"]]

/-- `_contains_context_request`. -/
def contains_context_request (content : String) : Bool :=
  context_indicators.any (matchesAlt content)

/-- `analyze_context` (orchestrator.py lines 105-178): build at most one
invocation per trigger category, in source order, then stable-sort ascending
by `priority`. -/
def analyze_context (content : String) (metadata : List (String × PyVal)) :
    List AgentInvocation :=
  let content_lower := strToLower content
  let invocations :=
    (if contains_decision_content content_lower then
      [{ agent_type := .MEMORY_STORE, trigger := .DECISION_MADE,
         context := [("content", .str content), ("metadata", .dict metadata),
                     ("auto_store", .bool true),
                     ("reason", .str "Decision or solution detected")],
         priority := 1 }]
     else []) ++
    (if contains_error_content content_lower then
      [{ agent_type := .DEBUG_CONTEXT, trigger := .ERROR_ENCOUNTERED,
         context := [("error_content", .str content), ("metadata", .dict metadata)],
         priority := 1 }]
     else []) ++
    (if contains_task_content content_lower then
      [{ agent_type := .MEMORY_CONTEXT, trigger := .TASK_STARTED,
         context := [("task_description", .str content), ("metadata", .dict metadata)],
         priority := 1 }]
     else []) ++
    (if contains_test_content content_lower then
      [{ agent_type := .TEST_CONTEXT, trigger := .TESTING_NEEDED,
         context := [("test_request", .str content), ("metadata", .dict metadata)],
         priority := 2 }]
     else []) ++
    (if contains_context_request content_lower then
      [{ agent_type := .MEMORY_RECALL, trigger := .CONTEXT_NEEDED,
         context := [("query", .str content), ("metadata", .dict metadata)],
         priority := 2 }]
     else [])
  sortStableBy (fun a b => decide (a.priority ≤ b.priority)) invocations

mutual

/-- Canonical rendering of a `PyVal`, standing in for Python's `str()` of a
context dictionary inside an f-string. -/
def PyVal.render : PyVal → String
  | .str s => "\x27" ++ s ++ "\x27"
  | .int n => toString n
  | .bool b => if b then "True" else "False"
  | .dict entries => "\x7b" ++ PyVal.renderEntries entries ++ "\x7d"

/-- Render the entries of a `PyVal.dict`, comma separated. -/
def PyVal.renderEntries : List (String × PyVal) → String
  | [] => ""
  | [(k, v)] => "\x27" ++ k ++ "\x27: " ++ v.render
  | (k, v) :: rest =>
      "\x27" ++ k ++ "\x27: " ++ v.render ++ ", " ++ PyVal.renderEntries rest

end

/-- `invocation.context.get(key, '')`, rendered the way an f-string would
show it (the orchestrator only ever stores strings under the keys it reads
back). -/
def ctxGet (ctx : List (String × PyVal)) (key : String) : String :=
  match ctx.find? (fun kv => kv.1 == key) with
  | some (_, .str s) => s
  | some (_, v) => v.render
  | none => ""

/-- `_build_agent_prompt` (orchestrator.py lines 318-375). -/
def build_agent_prompt (inv : AgentInvocation) : String :=
  let base_prompt := "Agent triggered by: " ++ inv.trigger.value ++ "\n"
  match inv.agent_type with
  | .MEMORY_STORE =>
      base_prompt ++ "\nStore this important information in memory:\n\nContent: " ++
      ctxGet inv.context "content" ++
      "\n\nThis was automatically detected as containing decisions, solutions, or important insights that should be preserved for future reference.\n\nPlease store this with appropriate tags and metadata.\n"
  | .MEMORY_CONTEXT =>
      base_prompt ++ "\nGather comprehensive context for this task:\n\nTask: " ++
      ctxGet inv.context "task_description" ++
      "\n\nPlease decompose this task, search for related memories, and provide relevant context that would help with successful completion.\n"
  | .DEBUG_CONTEXT =>
      base_prompt ++ "\nProvide debugging context for this issue:\n\nError/Issue: " ++
      ctxGet inv.context "error_content" ++
      "\n\nPlease search for similar problems, solutions, and debugging approaches from past experiences.\n"
  | .TEST_CONTEXT =>
      base_prompt ++ "\nProvide testing context for this request:\n\nTesting Request: " ++
      ctxGet inv.context "test_request" ++
      "\n\nPlease analyze the target, find testing patterns, and provide comprehensive context for test creation.\n"
  | .MEMORY_RECALL =>
      base_prompt ++ "\nRetrieve relevant memories for this query:\n\nQuery: " ++
      ctxGet inv.context "query" ++
      "\n\nPlease search for similar situations, solutions, and relevant historical context.\n"
  | _ =>
      base_prompt ++ "\nContext: " ++ (PyVal.dict inv.context).render ++
      "\n\nPlease execute your specialized function based on this context.\n"

/-- `_execute_single_agent` (orchestrator.py lines 285-316): the current
implementation is a stub that builds the prompt and returns a canned
success payload. -/
def execute_single_agent (inv : AgentInvocation) : AgentResult :=
  let agent_prompt := build_agent_prompt inv
  { agent_type := inv.agent_type,
    success := true,
    data := [("agent", .str inv.agent_type.value),
             ("trigger", .str inv.trigger.value),
             ("context", .dict inv.context),
             ("prompt_sent", .str agent_prompt)],
    execution_time := 0,
    error_message := none }

/-- The failed `AgentResult` built in the `except` clause of
`execute_invocations`. -/
def failed_result (inv : AgentInvocation) (e : String) : AgentResult :=
  { agent_type := inv.agent_type, success := false, data := [],
    execution_time := 0, error_message := some e }

/-- `execute_invocations` (orchestrator.py lines 245-283), parametrised over
the awaited single-agent call, whose possible Python exception is modelled by
`Except`.  Per iteration: skip when the agent type is already active; else
mark active, execute; on success append the result to both the returned list
and the history; on exception append a failed result to the returned list
only; the `finally` clause discards the agent type from the active set on
every path, the skip path included. -/
def execute_invocations_with (ex : AgentInvocation → Except String AgentResult) :
    List AgentInvocation → OrchestratorState → OrchestratorState × List AgentResult
  | [], s => (s, [])
  | inv :: rest, s =>
    if inv.agent_type ∈ s.active_agents then
      execute_invocations_with ex rest
        { s with active_agents := s.active_agents.erase inv.agent_type }
    else
      let s1 : OrchestratorState :=
        { s with active_agents := insert inv.agent_type s.active_agents }
      match ex inv with
      | .ok r =>
        let s2 : OrchestratorState :=
          { active_agents := s1.active_agents.erase inv.agent_type,
            agent_history := s1.agent_history ++ [r] }
        let res := execute_invocations_with ex rest s2
        (res.1, r :: res.2)
      | .error e =>
        let s2 : OrchestratorState :=
          { s1 with active_agents := s1.active_agents.erase inv.agent_type }
        let res := execute_invocations_with ex rest s2
        (res.1, failed_result inv e :: res.2)

/-- `execute_invocations` with the source's stub executor, which never
raises. -/
def execute_invocations (invs : List AgentInvocation) (s : OrchestratorState) :
    OrchestratorState × List AgentResult :=
  execute_invocations_with (fun inv => .ok (execute_single_agent inv)) invs s

/-! ## Task decomposer (`task_decomposer.py`)

The decomposer's regexes fall into four shapes, modelled by `Pat`:
`\bw\b` (a literal between word boundaries, possibly containing spaces or
hyphens), `\.w\b` (a literal dot, then a literal, then a boundary),
`\ba.?b\b` (two literals separated by at most one non-newline character) and
`\ba\b.*\bb\b` (two bounded literals with anything between them on one line;
Python's `.` does not match a newline).  All literals start and end with word
characters, so `\b` at the ends means "the neighbouring character, if any,
is not a word character".  `re.IGNORECASE` together with lowercase-only
patterns is modelled by lowering the text first. -/

/-- The character after a match, if any, must not be a word character. -/
def boundaryOkAfter : List Char → Bool
  | [] => true
  | c :: _ => !isWordChar c

/-- Bounded occurrence of the literal `w` at the head of `l`, where
`prevIsWord` says whether the character just before `l` is a word
character. -/
def wordAt (w : List Char) (prevIsWord : Bool) (l : List Char) : Bool :=
  !prevIsWord && matchHere w l && boundaryOkAfter (l.drop w.length)

/-- Scan for a bounded occurrence of `w` (`re.search` of `\bw\b`). -/
def hasWordAux (w : List Char) (prevIsWord : Bool) : List Char → Bool
  | [] => false
  | c :: l => wordAt w prevIsWord (c :: l) || hasWordAux w (isWordChar c) l

/-- `re.search(r"\bw\b", text)` as a Boolean. -/
def hasWord (w : String) (text : String) : Bool :=
  hasWordAux w.toList false text.toList

/-- `re.findall(r"\bw\b", text).length`: count non-overlapping bounded
occurrences, resuming after each match.  `fuel` is initialised to the text
length; a step consumes at least one character, so it never runs out. -/
def countWordAux (w : List Char) : Nat → Bool → List Char → Nat
  | 0, _, _ => 0
  | _ + 1, _, [] => 0
  | fuel + 1, prevIsWord, c :: l =>
    if wordAt w prevIsWord (c :: l) then
      1 + countWordAux w fuel true (l.drop (w.length - 1))
    else
      countWordAux w fuel (isWordChar c) l

/-- `len(re.findall(r"\bw\b", text))`. -/
def countWord (w : String) (text : String) : Nat :=
  countWordAux w.toList text.toList.length false text.toList

/-- `\.w\b` at the head of `l`. -/
def dottedAt (w : List Char) : List Char → Bool
  | '.' :: rest => matchHere w rest && boundaryOkAfter (rest.drop w.length)
  | _ => false

/-- Scan for `\.w\b`. -/
def hasDottedAux (w : List Char) : List Char → Bool
  | [] => false
  | c :: l => dottedAt w (c :: l) || hasDottedAux w l

/-- `\ba.?b\b` at the head of `l` (the optional middle character may not be
a newline). -/
def nearAt (a b : List Char) (prevIsWord : Bool) (l : List Char) : Bool :=
  !prevIsWord && matchHere a l &&
    (let rest := l.drop a.length
     (matchHere b rest && boundaryOkAfter (rest.drop b.length)) ||
     (match rest with
      | [] => false
      | c :: rest2 => c != '\n' && matchHere b rest2 && boundaryOkAfter (rest2.drop b.length)))

/-- Scan for `\ba.?b\b`. -/
def hasNearAux (a b : List Char) (prevIsWord : Bool) : List Char → Bool
  | [] => false
  | c :: l => nearAt a b prevIsWord (c :: l) || hasNearAux a b (isWordChar c) l

/-- Scan for a bounded occurrence of `b` that starts before the next
newline (the reach of `.*`). -/
def hasWordBeforeNewline (b : List Char) (prevIsWord : Bool) : List Char → Bool
  | [] => false
  | c :: l =>
    if c == '\n' then false
    else wordAt b prevIsWord (c :: l) || hasWordBeforeNewline b (isWordChar c) l

/-- Scan for `\ba\b.*\bb\b`: a bounded `a`, then a bounded `b` starting
after it on the same line. -/
def hasWithinAux (a b : List Char) (prevIsWord : Bool) : List Char → Bool
  | [] => false
  | c :: l =>
    (wordAt a prevIsWord (c :: l) &&
      hasWordBeforeNewline b true ((c :: l).drop a.length)) ||
    hasWithinAux a b (isWordChar c) l

/-- One regex of the decomposer's pattern tables. -/
inductive Pat where
  | word (w : String)
  | dotted (w : String)
  | near (a b : String)
  | within (a b : String)

/-- `re.search(pattern, text, re.IGNORECASE)` over an already lowered
text. -/
def Pat.search (p : Pat) (text : String) : Bool :=
  match p with
  | .word w => hasWord w text
  | .dotted w => hasDottedAux w.toList text.toList
  | .near a b => hasNearAux a.toList b.toList false text.toList
  | .within a b => hasWithinAux a.toList b.toList false text.toList

/-- `TaskCategory` (task_decomposer.py lines 21-32).  Note there is no
`PERFORMANCE` member. -/
inductive TaskCategory where
  | IMPLEMENTATION
  | DEBUGGING
  | TESTING
  | ARCHITECTURE
  | RESEARCH
  | CONFIGURATION
  | DOCUMENTATION
  | REFACTORING
  | DEPLOYMENT
  | SECURITY
deriving DecidableEq

/-- The `.value` string of each `TaskCategory` member. -/
def TaskCategory.value : TaskCategory → String
  | .IMPLEMENTATION => "implementation"
  | .DEBUGGING => "debugging"
  | .TESTING => "testing"
  | .ARCHITECTURE => "architecture"
  | .RESEARCH => "research"
  | .CONFIGURATION => "configuration"
  | .DOCUMENTATION => "documentation"
  | .REFACTORING => "refactoring"
  | .DEPLOYMENT => "deployment"
  | .SECURITY => "security"

/-- `ContextType` (task_decomposer.py lines 35-46). -/
inductive ContextType where
  | TECHNICAL_PATTERNS
  | SIMILAR_IMPLEMENTATIONS
  | BEST_PRACTICES
  | COMMON_PITFALLS
  | CONFIGURATION_EXAMPLES
  | ERROR_SOLUTIONS
  | TESTING_STRATEGIES
  | PERFORMANCE_CONSIDERATIONS
  | SECURITY_PRACTICES
  | ARCHITECTURAL_DECISIONS
deriving DecidableEq

/-- The `.value` string of each `ContextType` member. -/
def ContextType.value : ContextType → String
  | .TECHNICAL_PATTERNS => "technical_patterns"
  | .SIMILAR_IMPLEMENTATIONS => "similar_implementations"
  | .BEST_PRACTICES => "best_practices"
  | .COMMON_PITFALLS => "common_pitfalls"
  | .CONFIGURATION_EXAMPLES => "configuration_examples"
  | .ERROR_SOLUTIONS => "error_solutions"
  | .TESTING_STRATEGIES => "testing_strategies"
  | .PERFORMANCE_CONSIDERATIONS => "performance_considerations"
  | .SECURITY_PRACTICES => "security_practices"
  | .ARCHITECTURAL_DECISIONS => "architectural_decisions"

/-- `context_type.value.replace("_", "-")`, as used for query tags. -/
def ContextType.tagSlug : ContextType → String
  | .TECHNICAL_PATTERNS => "technical-patterns"
  | .SIMILAR_IMPLEMENTATIONS => "similar-implementations"
  | .BEST_PRACTICES => "best-practices"
  | .COMMON_PITFALLS => "common-pitfalls"
  | .CONFIGURATION_EXAMPLES => "configuration-examples"
  | .ERROR_SOLUTIONS => "error-solutions"
  | .TESTING_STRATEGIES => "testing-strategies"
  | .PERFORMANCE_CONSIDERATIONS => "performance-considerations"
  | .SECURITY_PRACTICES => "security-practices"
  | .ARCHITECTURAL_DECISIONS => "architectural-decisions"

/-- `Priority` (task_decomposer.py lines 49-54). -/
inductive Priority where
  | CRITICAL
  | HIGH
  | MEDIUM
  | LOW
deriving DecidableEq

/-- The numeric `.value` of each `Priority` member (1 = critical .. 4 = low). -/
def Priority.value : Priority → Nat
  | .CRITICAL => 1
  | .HIGH => 2
  | .MEDIUM => 3
  | .LOW => 4

/-- `TaskComponent` dataclass; the `technologies` set is carried as the
insertion-ordered list of distinct detected keys. -/
structure TaskComponent where
  component : String
  category : TaskCategory
  technologies : List String
  context_needs : List (ContextType × Priority)
  search_terms : List String
  estimated_complexity : Nat

/-- `ContextQuery` dataclass. -/
structure ContextQuery where
  query_text : String
  context_type : ContextType
  priority : Priority
  tags : List String
  similarity_threshold : ℚ
  max_results : Nat

/-- `TaskDecomposition` dataclass. -/
structure TaskDecomposition where
  original_task : String
  primary_category : TaskCategory
  components : List TaskComponent
  context_queries : List ContextQuery
  technologies_involved : List String
  estimated_duration : String
  risk_factors : List String
  success_criteria : List String

/-- `_initialize_technology_patterns` (lines 105-120). -/
def technology_patterns : List (String × List Pat) :=
  [("python", [.word "python", .word "py", .dotted "py", .word "pip", .word "pytest",
               .word "django", .word "flask"]),
   ("javascript", [.word "javascript", .word "js", .dotted "js", .word "node",
                   .word "npm", .word "react", .word "vue"]),
   ("typescript", [.word "typescript", .word "ts", .dotted "ts", .dotted "tsx"]),
   ("docker", [.word "docker", .word "container", .word "dockerfile",
               .word "docker-compose"]),
   ("kubernetes", [.word "k8s", .word "kubernetes", .word "kubectl", .word "helm"]),
   ("database", [.word "database", .word "db", .word "sql", .word "postgres",
                 .word "mysql", .word "mongo"]),
   ("api", [.word "api", .word "rest", .word "graphql", .word "endpoint",
            .word "microservice"]),
   ("web", [.word "web", .word "http", .word "https", .word "html", .word "css",
            .word "frontend"]),
   ("testing", [.word "test", .word "testing", .word "unit test", .word "integration",
                .word "e2e"]),
   ("ci/cd", [.word "ci", .word "cd", .word "jenkins", .word "github actions",
              .word "pipeline"]),
   ("cloud", [.word "aws", .word "azure", .word "gcp", .word "cloud", .word "terraform"]),
   ("security", [.word "security", .word "auth", .word "ssl", .word "tls",
                 .word "oauth", .word "jwt"])]

/-- `_initialize_task_patterns` (lines 122-157), in the dict's insertion
order; every pattern there has the shape `\bw\b` and is kept as its
literal.  There are no patterns for DOCUMENTATION or DEPLOYMENT. -/
def task_patterns : List (TaskCategory × List String) :=
  [(.IMPLEMENTATION, ["implement", "create", "build", "develop", "add",
                      "write", "code", "feature", "function", "component"]),
   (.DEBUGGING, ["debug", "fix", "error", "bug", "issue", "problem",
                 "broken", "failing", "not working", "troubleshoot"]),
   (.TESTING, ["test", "testing", "unit test", "integration test",
               "e2e test", "spec", "verify", "validate"]),
   (.ARCHITECTURE, ["architecture", "design", "structure", "pattern",
                    "system", "module", "service", "microservice"]),
   (.RESEARCH, ["research", "investigate", "explore", "analyze",
                "compare", "evaluate", "study", "learn"]),
   (.CONFIGURATION, ["configure", "config", "setup", "install",
                     "deployment", "environment", "settings"]),
   (.REFACTORING, ["refactor", "clean up", "restructure", "optimize",
                   "improve", "modernize", "upgrade"]),
   (.SECURITY, ["security", "secure", "auth", "permission",
                "vulnerability", "encryption", "ssl", "tls"])]

/-- `_initialize_context_mappings` (lines 159-200); `.get(category, [])`
yields `[]` for the categories absent from the dict. -/
def context_mappings : TaskCategory → List (ContextType × Priority)
  | .IMPLEMENTATION =>
      [(.SIMILAR_IMPLEMENTATIONS, .CRITICAL), (.TECHNICAL_PATTERNS, .HIGH),
       (.BEST_PRACTICES, .HIGH), (.COMMON_PITFALLS, .MEDIUM),
       (.PERFORMANCE_CONSIDERATIONS, .MEDIUM)]
  | .DEBUGGING =>
      [(.ERROR_SOLUTIONS, .CRITICAL), (.COMMON_PITFALLS, .CRITICAL),
       (.SIMILAR_IMPLEMENTATIONS, .HIGH), (.TECHNICAL_PATTERNS, .MEDIUM)]
  | .TESTING =>
      [(.TESTING_STRATEGIES, .CRITICAL), (.BEST_PRACTICES, .HIGH),
       (.SIMILAR_IMPLEMENTATIONS, .HIGH), (.COMMON_PITFALLS, .MEDIUM)]
  | .ARCHITECTURE =>
      [(.ARCHITECTURAL_DECISIONS, .CRITICAL), (.TECHNICAL_PATTERNS, .CRITICAL),
       (.BEST_PRACTICES, .HIGH), (.PERFORMANCE_CONSIDERATIONS, .HIGH),
       (.SECURITY_PRACTICES, .MEDIUM)]
  | .CONFIGURATION =>
      [(.CONFIGURATION_EXAMPLES, .CRITICAL), (.BEST_PRACTICES, .HIGH),
       (.COMMON_PITFALLS, .HIGH), (.SIMILAR_IMPLEMENTATIONS, .MEDIUM)]
  | .SECURITY =>
      [(.SECURITY_PRACTICES, .CRITICAL), (.BEST_PRACTICES, .CRITICAL),
       (.COMMON_PITFALLS, .HIGH), (.SIMILAR_IMPLEMENTATIONS, .MEDIUM)]
  | _ => []

/-- `_categorize_task` (lines 240-253): per category, sum the `findall`
counts of its patterns; keep the categories with a positive score; Python's
`max(..., key=...)` returns the first maximum in dict order; default to
IMPLEMENTATION. -/
def categorize_task (task_description : String) : TaskCategory :=
  let text := strToLower task_description
  let category_scores := (task_patterns.map
      (fun cp => (cp.1, (cp.2.map (fun w => countWord w text)).foldl (· + ·) 0))).filter
    (fun cs => decide (0 < cs.2))
  match category_scores with
  | [] => TaskCategory.IMPLEMENTATION
  | c :: rest => (rest.foldl (fun best p => if best.2 < p.2 then p else best) c).1

/-- `_extract_technologies` (lines 255-266): a technology is involved as
soon as one of its patterns matches; the resulting set is carried as a
table-ordered list of distinct keys. -/
def extract_technologies (task_description : String) : List String :=
  let text := strToLower task_description
  technology_patterns.filterMap
    (fun tp => if tp.2.any (fun p => p.search text) then some tp.1 else none)

/-- `_estimate_complexity` (lines 395-412): each pattern group in the
source is an alternation of `\bw\b` literals. -/
def complexity_indicators : List (List String × Nat) :=
  [(["complex", "advanced", "sophisticated"], 2),
   (["multiple", "several", "many"], 1),
   (["integration", "api", "microservice"], 1),
   (["security", "auth", "encryption"], 1),
   (["performance", "optimiz", "scal"], 1),
   (["database", "data", "storage"], 1),
   (["test", "testing"], 1)]

/-- `_estimate_complexity`: start at 1, add the weight of every matched
indicator group, cap at 5. -/
def estimate_complexity (text : String) : Nat :=
  let lowered := strToLower text
  let base := complexity_indicators.foldl
    (fun acc iw => if iw.1.any (fun w => hasWord w lowered) then acc + iw.2 else acc) 1
  min 5 base

/-- `_identify_components` (lines 268-306).  Both `TaskComponent`
constructions pass `search_terms=self._generate_search_terms(...)`, but no
method `_generate_search_terms` is defined anywhere in the class or the
repository, so the attribute lookup raises `AttributeError` before the
first component is built; the remainder of the body (the split on "and")
is unreachable. -/
def identify_components (_task_description : String) (_category : TaskCategory)
    (_technologies : List String) : Except String (List TaskComponent) :=
  .error "AttributeError: \x27TaskDecomposer\x27 object has no attribute \x27_generate_search_terms\x27"

/-- The stopword set of `_extract_key_terms` (line 360). -/
def common_words : List String :=
  ["the", "a", "an", "and", "or", "but", "in", "on", "at", "to", "for", "of",
   "with", "by", "is", "are", "was", "were", "be", "been", "have", "has",
   "had", "do", "does", "did", "will", "would", "could", "should"]

/-- Maximal runs of word characters (`re.findall(r"\b\w+\b", text)`). -/
def wordRunsAux (acc : List Char) : List Char → List String
  | [] => if acc.isEmpty then [] else [String.mk acc.reverse]
  | c :: rest =>
    if isWordChar c then wordRunsAux (c :: acc) rest
    else if acc.isEmpty then wordRunsAux [] rest
    else String.mk acc.reverse :: wordRunsAux [] rest

/-- `_extract_key_terms` (lines 357-365): the ten first lowered word tokens
that are neither stopwords nor short. -/
def extract_key_terms (text : String) : String :=
  let words := wordRunsAux [] (strToLower text).toList
  let key_terms := words.filter
    (fun w => !(common_words.contains w) && decide (2 < w.length))
  " ".intercalate (key_terms.take 10)

/-- `context_modifiers` of `_build_query_text` (lines 340-351); all ten
context types are present, so the `.get(..., "")` default is dead. -/
def context_modifiers : ContextType → String
  | .SIMILAR_IMPLEMENTATIONS => "implementation example pattern"
  | .BEST_PRACTICES => "best practice recommendation guideline"
  | .COMMON_PITFALLS => "problem pitfall mistake avoid"
  | .ERROR_SOLUTIONS => "error fix solution resolved"
  | .TESTING_STRATEGIES => "test testing strategy approach"
  | .CONFIGURATION_EXAMPLES => "configuration config setup example"
  | .TECHNICAL_PATTERNS => "pattern architecture design approach"
  | .PERFORMANCE_CONSIDERATIONS => "performance optimization scalability"
  | .SECURITY_PRACTICES => "security secure authentication authorization"
  | .ARCHITECTURAL_DECISIONS => "architecture decision design choice"

/-- `_build_query_text` (lines 335-355); `" ".join(technologies)` over the
Python set is modelled by joining the table-ordered technology list. -/
def build_query_text (task_description : String) (context_type : ContextType)
    (technologies : List String) : String :=
  let base_terms := extract_key_terms task_description
  let tech_terms := if technologies.isEmpty then "" else " ".intercalate technologies
  let modifier := context_modifiers context_type
  (base_terms ++ " " ++ tech_terms ++ " " ++ modifier).trim

/-- `_generate_tags` (lines 367-373). -/
def generate_tags (technologies : List String) (category : TaskCategory)
    (context_type : ContextType) : List String :=
  technologies ++ [category.value, context_type.tagSlug]

/-- `_get_threshold_for_priority` (lines 375-383). -/
def get_threshold_for_priority : Priority → ℚ
  | .CRITICAL => 3/10
  | .HIGH => 4/10
  | .MEDIUM => 5/10
  | .LOW => 6/10

/-- `_get_max_results_for_priority` (lines 385-393). -/
def get_max_results_for_priority : Priority → Nat
  | .CRITICAL => 15
  | .HIGH => 10
  | .MEDIUM => 8
  | .LOW => 5

/-- `_generate_context_queries` (lines 308-333): one query per
`(context_type, priority)` pair of the primary category, stably sorted
ascending by priority value. -/
def generate_context_queries (task_description : String) (category : TaskCategory)
    (technologies : List String) (_components : List TaskComponent) : List ContextQuery :=
  let queries := (context_mappings category).map (fun cp =>
    { query_text := build_query_text task_description cp.1 technologies,
      context_type := cp.1,
      priority := cp.2,
      tags := generate_tags technologies category cp.1,
      similarity_threshold := get_threshold_for_priority cp.2,
      max_results := get_max_results_for_priority cp.2 : ContextQuery })
  sortStableBy (fun a b => decide (a.priority.value ≤ b.priority.value)) queries

/-- `_estimate_duration` (lines 414-427). -/
def estimate_duration (components : List TaskComponent) : String :=
  let total := (components.map (·.estimated_complexity)).foldl (· + ·) 0
  if total ≤ 3 then "1-2 hours"
  else if total ≤ 6 then "2-4 hours"
  else if total ≤ 10 then "4-8 hours"
  else if total ≤ 15 then "1-2 days"
  else "2+ days"

/-- `risk_patterns` of `_identify_risk_factors` (lines 434-443). -/
def risk_patterns : List (List Pat × String) :=
  [([.word "new", .word "unfamiliar", .word "first time"],
    "Working with unfamiliar technology"),
   ([.word "legacy", .word "old", .word "deprecated"],
    "Working with legacy systems"),
   ([.word "migration", .word "upgrade"], "Migration/upgrade complexity"),
   ([.word "integration", .near "third" "party"],
    "Third-party integration challenges"),
   ([.word "performance", .word "scale"],
    "Performance and scalability requirements"),
   ([.word "security", .word "auth"], "Security implementation complexity"),
   ([.word "deadline", .word "urgent", .word "asap"], "Time pressure"),
   ([.within "multiple" "team"], "Multi-team coordination required")]

/-- `_identify_risk_factors` (lines 429-457). -/
def identify_risk_factors (task_description : String)
    (components : List TaskComponent) : List String :=
  let text := strToLower task_description
  let risks := risk_patterns.filterMap
    (fun pr => if pr.1.any (fun p => p.search text) then some pr.2 else none)
  let risks := risks ++
    (if components.any (fun c => decide (4 ≤ c.estimated_complexity)) then
      ["High complexity components present"] else [])
  let risks := risks ++
    (if 3 < components.length then ["Multiple interdependent components"] else [])
  if risks.isEmpty then ["Low risk task"] else risks

/-- First-occurrence deduplication, the canonical stand-in for Python's
unordered `list(set(...))`, and the insertion order of the keys of a dict
built by traversal. -/
def dedupFirst [DecidableEq α] (l : List α) : List α :=
  l.foldl (fun acc x => if x ∈ acc then acc else acc ++ [x]) []

/-- The component loop of `_generate_success_criteria` (lines 467-475).
Its final `elif` compares against `TaskCategory.PERFORMANCE`, a member that
does not exist, so reaching it raises `AttributeError` — which happens for
every component whose category is not TESTING, DEBUGGING or SECURITY. -/
def component_criteria : List TaskComponent → Except String (List String)
  | [] => .ok []
  | c :: rest =>
    match c.category with
    | .TESTING =>
        (component_criteria rest).map (fun l => "All tests pass with good coverage" :: l)
    | .DEBUGGING =>
        (component_criteria rest).map (fun l => "Original issue resolved and verified" :: l)
    | .SECURITY =>
        (component_criteria rest).map (fun l => "Security requirements met and verified" :: l)
    | _ =>
        .error "AttributeError: PERFORMANCE"

/-- `_generate_success_criteria` (lines 459-493); the trailing
`list(set(criteria))` is modelled by first-occurrence deduplication. -/
def generate_success_criteria (_task_description : String)
    (components : List TaskComponent) : Except String (List String) :=
  match component_criteria components with
  | .error e => .error e
  | .ok comp_crit =>
    let criteria := "Task implementation completed successfully" :: comp_crit
    let techs := dedupFirst ((components.map (·.technologies)).flatten)
    let tech_crit := techs.filterMap (fun tech =>
      if tech == "testing" then some "Test suite runs successfully"
      else if tech == "database" then some "Database operations work correctly"
      else if tech == "api" then some "API endpoints respond correctly"
      else none)
    let criteria := criteria ++ tech_crit ++
      ["Code follows project conventions and standards",
       "Documentation updated as needed",
       "No regressions in existing functionality"]
    .ok (dedupFirst criteria)

/-- `decompose_task` (lines 202-238), with Python exceptions modelled by
`Except`: categorize, extract technologies, identify components (which
raises — see `identify_components`), then build queries, duration, risks
and success criteria. -/
def decompose_task (task_description : String) : Except String TaskDecomposition :=
  let primary_category := categorize_task task_description
  let technologies := extract_technologies task_description
  match identify_components task_description primary_category technologies with
  | .error e => .error e
  | .ok components =>
    let context_queries :=
      generate_context_queries task_description primary_category technologies components
    let estimated_duration := estimate_duration components
    let risk_factors := identify_risk_factors task_description components
    match generate_success_criteria task_description components with
    | .error e => .error e
    | .ok success_criteria =>
      .ok { original_task := task_description,
            primary_category := primary_category,
            components := components,
            context_queries := context_queries,
            technologies_involved := technologies,
            estimated_duration := estimated_duration,
            risk_factors := risk_factors,
            success_criteria := success_criteria }

/-! ## Context builder (`context_builder.py`)

Timestamps are modelled as integer day counts (the code only ever compares
them against day-granularity `timedelta`s); "now" is passed explicitly
where the source calls `datetime.now()`.  Raw search results arrive as
dictionaries read through `.get` with defaults; each such read is one
`Option` field here — `timestamp` covers both the `timestamp`/`created_at`
keys and the three-format string parse, whose failure falls back to "now"
just as a missing key does, `score` covers `score`/`similarity`, and `hash`
covers `hash`/`id`. -/

/-- `ContextSectionType` (context_builder.py lines 26-39). -/
inductive ContextSectionType where
  | OVERVIEW
  | SIMILAR_IMPLEMENTATIONS
  | BEST_PRACTICES
  | COMMON_PITFALLS
  | TECHNICAL_PATTERNS
  | ERROR_SOLUTIONS
  | TESTING_STRATEGIES
  | CONFIGURATION_EXAMPLES
  | PERFORMANCE_CONSIDERATIONS
  | SECURITY_PRACTICES
  | ARCHITECTURAL_DECISIONS
  | RECENT_RELATED_WORK
deriving DecidableEq

/-- `ContextItem` dataclass. -/
structure ContextItem where
  content : String
  source_hash : String
  relevance_score : ℚ
  context_type : ContextType
  tags : List String
  timestamp : Int
  memory_metadata : List (String × PyVal)

/-- `ContextSection` dataclass. -/
structure ContextSection where
  section_type : ContextSectionType
  title : String
  items : List ContextItem
  priority : Priority
  summary : Option String := none

/-- The `assembly_metadata` dictionary (lines 155-162); `assembly_time_ms`
is wall-clock time in the source and is fixed at `0` in this model. -/
structure AssemblyMetadata where
  assembly_time_ms : ℚ
  total_memory_results : Nat
  sections_created : Nat
  highest_relevance : ℚ
  technologies_covered : List String
  context_types_found : List String

/-- The `decomposition_summary` dictionary (lines 166-172). -/
structure DecompositionSummary where
  category : String
  technologies : List String
  components_count : Nat
  estimated_duration : String
  risk_factors : List String

/-- `AssembledContext` dataclass. -/
structure AssembledContext where
  task_description : String
  decomposition_summary : DecompositionSummary
  sections : List ContextSection
  total_items : Nat
  assembly_metadata : AssemblyMetadata
  created_at : Int
  estimated_relevance : ℚ

/-- One raw memory search result, as read by `_parse_memory_results`. -/
structure RawResult where
  content : Option String := none
  metadata : Option (List (String × PyVal)) := none
  tags : Option (List String) := none
  timestamp : Option Int := none
  score : Option ℚ := none
  hash : Option String := none

/-- `_initialize_context_mappings` (lines 88-101); every one of the ten
`ContextType`s is mapped, so the `.get` can in fact never miss. -/
def context_type_mappings : ContextType → Option ContextSectionType
  | .SIMILAR_IMPLEMENTATIONS => some .SIMILAR_IMPLEMENTATIONS
  | .BEST_PRACTICES => some .BEST_PRACTICES
  | .COMMON_PITFALLS => some .COMMON_PITFALLS
  | .TECHNICAL_PATTERNS => some .TECHNICAL_PATTERNS
  | .ERROR_SOLUTIONS => some .ERROR_SOLUTIONS
  | .TESTING_STRATEGIES => some .TESTING_STRATEGIES
  | .CONFIGURATION_EXAMPLES => some .CONFIGURATION_EXAMPLES
  | .PERFORMANCE_CONSIDERATIONS => some .PERFORMANCE_CONSIDERATIONS
  | .SECURITY_PRACTICES => some .SECURITY_PRACTICES
  | .ARCHITECTURAL_DECISIONS => some .ARCHITECTURAL_DECISIONS

/-- `_initialize_section_priorities` (lines 103-118); all twelve section
types are present, so the `.get(..., Priority.MEDIUM)` default is dead. -/
def section_priorities : ContextSectionType → Priority
  | .OVERVIEW => .CRITICAL
  | .SIMILAR_IMPLEMENTATIONS => .CRITICAL
  | .BEST_PRACTICES => .HIGH
  | .TECHNICAL_PATTERNS => .HIGH
  | .COMMON_PITFALLS => .HIGH
  | .ERROR_SOLUTIONS => .HIGH
  | .TESTING_STRATEGIES => .MEDIUM
  | .CONFIGURATION_EXAMPLES => .MEDIUM
  | .PERFORMANCE_CONSIDERATIONS => .MEDIUM
  | .SECURITY_PRACTICES => .MEDIUM
  | .ARCHITECTURAL_DECISIONS => .MEDIUM
  | .RECENT_RELATED_WORK => .LOW

/-- `_get_max_items_for_section` (lines 316-330); the catch-all is the
source's `.get(..., 5)` default. -/
def get_max_items_for_section : ContextSectionType → Nat
  | .SIMILAR_IMPLEMENTATIONS => 8
  | .BEST_PRACTICES => 6
  | .COMMON_PITFALLS => 5
  | .TECHNICAL_PATTERNS => 6
  | .ERROR_SOLUTIONS => 8
  | .TESTING_STRATEGIES => 5
  | .CONFIGURATION_EXAMPLES => 4
  | .PERFORMANCE_CONSIDERATIONS => 4
  | .SECURITY_PRACTICES => 4
  | .ARCHITECTURAL_DECISIONS => 5
  | _ => 5

/-- The `section_titles` table of `_create_context_sections`
(lines 281-292), with the emoji prefixes of the source omitted as
presentational; the catch-all covers the source's title-cased fallback,
which is unreachable because grouping only produces the ten mapped types. -/
def section_title : ContextSectionType → String
  | .SIMILAR_IMPLEMENTATIONS => "Similar Implementations"
  | .BEST_PRACTICES => "Best Practices"
  | .COMMON_PITFALLS => "Common Pitfalls to Avoid"
  | .TECHNICAL_PATTERNS => "Technical Patterns"
  | .ERROR_SOLUTIONS => "Error Solutions"
  | .TESTING_STRATEGIES => "Testing Strategies"
  | .CONFIGURATION_EXAMPLES => "Configuration Examples"
  | .PERFORMANCE_CONSIDERATIONS => "Performance Considerations"
  | .SECURITY_PRACTICES => "Security Practices"
  | .ARCHITECTURAL_DECISIONS => "Architectural Decisions"
  | .OVERVIEW => "Overview"
  | .RECENT_RELATED_WORK => "Recent Related Work"

/-- `context_type.value.replace("_", " ").title()`, as used by
`_generate_coverage_summary`. -/
def ContextType.titleName : ContextType → String
  | .TECHNICAL_PATTERNS => "Technical Patterns"
  | .SIMILAR_IMPLEMENTATIONS => "Similar Implementations"
  | .BEST_PRACTICES => "Best Practices"
  | .COMMON_PITFALLS => "Common Pitfalls"
  | .CONFIGURATION_EXAMPLES => "Configuration Examples"
  | .ERROR_SOLUTIONS => "Error Solutions"
  | .TESTING_STRATEGIES => "Testing Strategies"
  | .PERFORMANCE_CONSIDERATIONS => "Performance Considerations"
  | .SECURITY_PRACTICES => "Security Practices"
  | .ARCHITECTURAL_DECISIONS => "Architectural Decisions"

/-- `_find_context_query` (lines 230-241): parse the trailing integer of
the query id and index into the query list; on a parse failure or an
out-of-range index fall back to the first query, or `None` if there are no
queries.  (Python's `int()` additionally tolerates surrounding whitespace;
query ids are machine-generated without any.) -/
def find_context_query (query_id : String) (context_queries : List ContextQuery) :
    Option ContextQuery :=
  let idx_str :=
    if containsSub query_id "_" then (query_id.splitOn "_").getLastD query_id
    else query_id
  match idx_str.toNat? with
  | some i =>
      if h : i < context_queries.length then some context_queries[i]
      else context_queries.head?
  | none => context_queries.head?

/-- `_parse_memory_results` (lines 183-228): items of query ids with no
matching query are skipped; missing fields take their `.get` defaults
(score `0.5`, timestamp "now"); finally the items are stably sorted
descending by relevance. -/
def parse_memory_results (memory_results : List (String × List RawResult))
    (decomposition : TaskDecomposition) (now : Int) : List ContextItem :=
  let items := memory_results.foldl (fun acc qr =>
    match find_context_query qr.1 decomposition.context_queries with
    | none => acc
    | some cq => acc ++ qr.2.map (fun r =>
        { content := r.content.getD "",
          source_hash := r.hash.getD "",
          relevance_score := r.score.getD (1/2),
          context_type := cq.context_type,
          tags := r.tags.getD [],
          timestamp := r.timestamp.getD now,
          memory_metadata := r.metadata.getD [] : ContextItem })) []
  sortStableBy (fun a b => decide (b.relevance_score ≤ a.relevance_score)) items

/-- `_group_items_by_section` (lines 262-274): a dict keyed by section type
in first-encounter order, holding each key's items in list order. -/
def group_items_by_section (context_items : List ContextItem) :
    List (ContextSectionType × List ContextItem) :=
  let keys := dedupFirst (context_items.filterMap (fun i => context_type_mappings i.context_type))
  keys.map (fun k =>
    (k, context_items.filter (fun i => decide (context_type_mappings i.context_type = some k))))

/-- `_generate_section_summary` (lines 332-361): tag frequencies in
first-occurrence order, stably sorted descending, top three. -/
def generate_section_summary (section_type : ContextSectionType)
    (items : List ContextItem) : Option String :=
  if items.isEmpty then none
  else
    let all_tags := (items.map (·.tags)).flatten
    let high_relevance_items := items.filter (fun i => decide ((6:ℚ)/10 < i.relevance_score))
    let tag_counts := (dedupFirst all_tags).map (fun t => (t, all_tags.count t))
    let common_tags := (sortStableBy (fun a b => decide (b.2 ≤ a.2)) tag_counts).take 3
    let names := common_tags.map (·.1)
    match section_type with
    | .SIMILAR_IMPLEMENTATIONS =>
        some ("Found " ++ toString items.length ++ " similar implementations, focusing on "
          ++ ", ".intercalate names)
    | .BEST_PRACTICES =>
        some (toString items.length ++ " best practices identified, with "
          ++ toString high_relevance_items.length ++ " highly relevant recommendations")
    | .COMMON_PITFALLS =>
        some (toString items.length ++ " potential pitfalls to avoid, particularly around "
          ++ ", ".intercalate (names.take 2))
    | .ERROR_SOLUTIONS =>
        some (toString items.length ++ " error solutions found with "
          ++ toString high_relevance_items.length ++ " highly relevant fixes")
    | .TESTING_STRATEGIES =>
        some (toString items.length ++ " testing approaches covering "
          ++ ", ".intercalate (names.take 2))
    | _ => some (toString items.length ++ " relevant items found")

/-- `_create_context_sections` (lines 276-314): skip empty groups, sort
each group's items descending by relevance, truncate to the per-type cap,
attach title, default priority and summary. -/
def create_context_sections (sections_data : List (ContextSectionType × List ContextItem)) :
    List ContextSection :=
  sections_data.filterMap (fun sd =>
    if sd.2.isEmpty then none
    else
      let items := sortStableBy (fun a b => decide (b.relevance_score ≤ a.relevance_score)) sd.2
      let limited_items := items.take (get_max_items_for_section sd.1)
      some { section_type := sd.1,
             title := section_title sd.1,
             items := limited_items,
             priority := section_priorities sd.1,
             summary := generate_section_summary sd.1 limited_items })

/-- Render a rational with two decimals (Python's `f"{x:.2f}"`; half-up
rounding stands in for float formatting). -/
def fmt2 (q : ℚ) : String :=
  let n : Int := ⌊q * 100 + 1/2⌋
  let whole := n / 100
  let frac := (n % 100).toNat
  toString whole ++ "." ++ (if frac < 10 then "0" else "") ++ toString frac

/-- `_generate_coverage_summary` (lines 432-443). -/
def generate_coverage_summary (context_items : List ContextItem) : String :=
  let names := context_items.map (fun i => i.context_type.titleName)
  let counts := (dedupFirst names).map (fun n => (n, names.count n))
  let sorted := sortStableBy (fun a b => decide (b.2 ≤ a.2)) counts
  let coverage_lines := sorted.map (fun p => "- " ++ p.1 ++ ": " ++ toString p.2 ++ " items")
  "\n".intercalate (coverage_lines.take 6)

/-- `_create_overview_section` (lines 388-430): one synthetic item with
relevance `1.0`, context type TECHNICAL_PATTERNS, priority CRITICAL. -/
def create_overview_section (context_items : List ContextItem)
    (decomposition : TaskDecomposition) (now : Int) : ContextSection :=
  let total_items := context_items.length
  let avg_relevance : ℚ :=
    ((context_items.map (·.relevance_score)).foldl (· + ·) 0) / max context_items.length 1
  let technologies := decomposition.technologies_involved
  let overview_content :=
    "# Context Overview\n\n**Task**: " ++ decomposition.original_task ++
    "\n\n**Summary**: Found " ++ toString total_items ++
    " relevant memories with average relevance of " ++ fmt2 avg_relevance ++
    "\n\n**Technologies Involved**: " ++
    (if technologies.isEmpty then "General development" else ", ".intercalate technologies) ++
    "\n\n**Task Complexity**: " ++ decomposition.estimated_duration ++
    "\n\n**Key Areas Covered**:\n" ++ generate_coverage_summary context_items ++
    "\n\n**Risk Factors**: " ++ ", ".intercalate decomposition.risk_factors
  let overview_item : ContextItem :=
    { content := overview_content,
      source_hash := "overview_generated",
      relevance_score := 1,
      context_type := .TECHNICAL_PATTERNS,
      tags := technologies ++ [decomposition.primary_category.value],
      timestamp := now,
      memory_metadata := [("generated", .bool true), ("type", .str "overview")] }
  { section_type := .OVERVIEW,
    title := "Task Context Overview",
    items := [overview_item],
    priority := .CRITICAL,
    summary := some "Generated overview of available context" }

/-- `_add_special_sections` (lines 363-386): unconditionally prepend the
overview; append a RECENT_RELATED_WORK section when any item is at most 30
days old. -/
def add_special_sections (sections : List ContextSection)
    (context_items : List ContextItem) (decomposition : TaskDecomposition)
    (now : Int) : List ContextSection :=
  let sections := create_overview_section context_items decomposition now :: sections
  let recent_items := context_items.filter (fun i => decide (now - 30 < i.timestamp))
  if recent_items.isEmpty then sections
  else sections ++
    [{ section_type := .RECENT_RELATED_WORK,
       title := "Recent Related Work",
       items := recent_items.take 5,
       priority := .LOW,
       summary := some ("Recent work from the last 30 days ("
         ++ toString recent_items.length ++ " items found)") }]

/-- `_calculate_overall_relevance` (lines 445-456): position-weighted
average of the top twenty items. -/
def calculate_overall_relevance (context_items : List ContextItem) : ℚ :=
  if context_items.isEmpty then 0
  else
    let weighted_scores := (context_items.take 20).enum.map
      (fun p => p.2.relevance_score * max (1/10) (1 - (p.1 : ℚ) * (5/100)))
    if weighted_scores.isEmpty then 0
    else (weighted_scores.foldl (· + ·) 0) / weighted_scores.length

/-- `assemble_context` (lines 120-181). -/
def assemble_context (decomposition : TaskDecomposition)
    (memory_results : List (String × List RawResult)) (now : Int) : AssembledContext :=
  let context_items := parse_memory_results memory_results decomposition now
  let sections_data := group_items_by_section context_items
  let sections := create_context_sections sections_data
  let sections := add_special_sections sections context_items decomposition now
  let sections := sortStableBy (fun a b => decide (a.priority.value ≤ b.priority.value)) sections
  let overall_relevance := calculate_overall_relevance context_items
  let assembly_metadata : AssemblyMetadata :=
    { assembly_time_ms := 0,
      total_memory_results := (memory_results.map (fun qr => qr.2.length)).foldl (· + ·) 0,
      sections_created := sections.length,
      highest_relevance :=
        match context_items.map (·.relevance_score) with
        | [] => 0
        | x :: rest => rest.foldl max x,
      technologies_covered := decomposition.technologies_involved,
      context_types_found := dedupFirst (context_items.map (fun i => i.context_type.value)) }
  { task_description := decomposition.original_task,
    decomposition_summary :=
      { category := decomposition.primary_category.value,
        technologies := decomposition.technologies_involved,
        components_count := decomposition.components.length,
        estimated_duration := decomposition.estimated_duration,
        risk_factors := decomposition.risk_factors },
    sections := sections,
    total_items := context_items.length,
    assembly_metadata := assembly_metadata,
    created_at := now,
    estimated_relevance := overall_relevance }

/-! ## Relevance scorer (`relevance_scorer.py`)

Scores are real numbers (`math.exp` and `math.log` appear in the temporal
and usage dimensions).  Candidate timestamps are integer day counts, with
`Option` for a missing (`None`) timestamp — the code guards for it in
`_calculate_temporal_relevance` but not in the urgency adjustment, where the
subtraction `datetime.now() - None` raises; that exception is the `Except`
error of `apply_contextual_adjustments`.  Metadata values (`Any` in the
source) are modelled by `MVal`: scalars and lists of scalars, enough for
the `==` / `in` / substring tests the matcher performs. -/

/-- Key lookup in an association list (a Python dict read). -/
def lookupKey [DecidableEq κ] : List (κ × β) → κ → Option β
  | [], _ => none
  | kv :: rest, k => if kv.1 = k then some kv.2 else lookupKey rest k

/-- `ScoreDimension` (relevance_scorer.py lines 23-32). -/
inductive ScoreDimension where
  | SEMANTIC_SIMILARITY
  | TEMPORAL_RELEVANCE
  | TAG_OVERLAP
  | METADATA_MATCH
  | CONTENT_TYPE_MATCH
  | TECHNOLOGY_ALIGNMENT
  | CONTEXTUAL_SIMILARITY
  | USAGE_FREQUENCY
deriving DecidableEq

/-- `ContextualFactor` (relevance_scorer.py lines 35-42). -/
inductive ContextualFactor where
  | TASK_CATEGORY
  | URGENCY_LEVEL
  | COMPLEXITY_LEVEL
  | DOMAIN_SPECIFICITY
  | ERROR_CONTEXT
  | IMPLEMENTATION_STAGE
deriving DecidableEq

/-- A Python metadata value: a scalar or a list of scalars. -/
inductive MScalar where
  | s (v : String)
  | i (n : Int)
  | b (v : Bool)
deriving DecidableEq

/-- A metadata value as compared by `_calculate_metadata_match`. -/
inductive MVal where
  | scalar (v : MScalar)
  | list (vs : List MScalar)
deriving DecidableEq

noncomputable section

/-- `ScoringWeights` (lines 45-55) with its defaults, which sum to 1. -/
structure ScoringWeights where
  semantic_similarity : ℝ := 0.30
  temporal_relevance : ℝ := 0.15
  tag_overlap : ℝ := 0.20
  metadata_match : ℝ := 0.10
  content_type_match : ℝ := 0.10
  technology_alignment : ℝ := 0.10
  contextual_similarity : ℝ := 0.03
  usage_frequency : ℝ := 0.02

/-- `self.default_weights = ScoringWeights()`. -/
def default_weights : ScoringWeights := {}

/-- `ScoringContext` (lines 58-68): the `target_technologies` set is a
list of distinct names; `metadata_requirements = None` and
`contextual_factors = None` coincide with the empty dict, to which the code
only ever applies truthiness tests and key lookups. -/
structure ScoringContext where
  query_text : String
  query_tags : List String
  target_technologies : List String
  task_category : String
  content_type_preference : Option String := none
  temporal_preference : Option String := none
  metadata_requirements : List (String × MVal) := []
  contextual_factors : List (ContextualFactor × String) := []

/-- `MemoryCandidate` (lines 71-80); `timestamp` is `Option` because the
scorer explicitly handles a missing (`None`) timestamp. -/
structure MemoryCandidate where
  content : String
  tags : List String
  metadata : List (String × MVal)
  timestamp : Option Int
  content_hash : String
  base_similarity_score : ℝ := 0
  usage_count : Int := 0

/-- One entry of the human-facing `reasoning` list.  The source renders
these as formatted strings; the content is kept structured here, number
formatting being presentation only. -/
inductive ReasoningEntry where
  | dimension (d : ScoreDimension) (score : ℝ)
  | positive (factors : List String)
  | limiting (factors : List String)

/-- `RelevanceScore` (lines 83-91); the `dimension_scores` dict is the
association list of the eight dimensions in insertion order. -/
structure RelevanceScore where
  total_score : ℝ
  dimension_scores : List (ScoreDimension × ℝ)
  confidence : ℝ
  reasoning : List ReasoningEntry
  boosters : List String
  penalties : List String

/-- `_initialize_technology_keywords` (lines 109-122); the scorer tests
these as plain substrings, unlike the decomposer's regexes. -/
def technology_keywords : List (String × List String) :=
  [("python", ["python", "py", "pip", "conda", "pytest", "django", "flask", "fastapi"]),
   ("javascript", ["javascript", "js", "node", "npm", "yarn", "react", "vue", "angular"]),
   ("typescript", ["typescript", "ts", "tsc", "tsx"]),
   ("docker", ["docker", "container", "dockerfile", "compose", "k8s", "kubernetes"]),
   ("database", ["database", "db", "sql", "postgres", "mysql", "mongo", "redis"]),
   ("api", ["api", "rest", "graphql", "endpoint", "microservice", "service"]),
   ("web", ["web", "http", "https", "html", "css", "frontend", "backend"]),
   ("cloud", ["aws", "azure", "gcp", "cloud", "serverless", "lambda"]),
   ("testing", ["test", "testing", "unit", "integration", "e2e", "spec", "mock"]),
   ("security", ["security", "auth", "oauth", "jwt", "ssl", "tls", "encryption"])]

/-- `_initialize_content_type_patterns` (lines 124-157): per content type,
three alternation patterns of plain literals (no word boundaries), each
modelled as the list of its alternatives; `failed?` is the literal
`faile`. -/
def content_type_patterns : List (String × List (List String)) :=
  [("decision",
    [["decided", "chosen", "selected", "going with", "will use"],
     ["solution", "approach", "strategy", "plan"],
     ["resolved", "fixed", "implemented", "deployed"]]),
   ("error",
    [["error", "exception", "faile", "crash", "bug"],
     ["not working", "broken", "issue", "problem"],
     ["debug", "troubleshoot", "fix"]]),
   ("implementation",
    [["implement", "create", "build", "develop", "code"],
     ["function", "method", "class", "component", "module"],
     ["feature", "functionality", "requirement"]]),
   ("configuration",
    [["config", "configuration", "setup", "install"],
     ["environment", "settings", "parameters"],
     ["deploy", "deployment", "infrastructure"]]),
   ("best_practice",
    [["best practice", "recommendation", "should", "ought"],
     ["pattern", "convention", "standard", "guideline"],
     ["lesson learned", "experience", "advice"]]),
   ("performance",
    [["performance", "optimize", "speed", "fast", "slow"],
     ["memory", "cpu", "resource", "scalability"],
     ["benchmark", "profiling", "bottleneck"]])]

/-- `_calculate_temporal_relevance` (lines 263-295): neutral 0.5 for a
missing timestamp; "recent" → exponential decay; "historical" → 0.6
rising from 0.8 past 90 days; default (anything else, including "any" and
unset) → the step function. -/
def calculate_temporal_relevance (candidate : MemoryCandidate)
    (context : ScoringContext) (now : Int) : ℝ :=
  match candidate.timestamp with
  | none => 0.5
  | some ts =>
    let days : Int := now - ts
    if context.temporal_preference = some "recent" then
      Real.exp (-(0.1) * (days : ℝ) / 30)
    else if context.temporal_preference = some "historical" then
      if 90 < days then 0.8 + 0.2 * min 1 (((days : ℝ) - 90) / 365) else 0.6
    else
      if days ≤ 7 then 1.0
      else if days ≤ 30 then 0.9
      else if days ≤ 90 then 0.8
      else if days ≤ 365 then 0.6
      else 0.4

/-- `_calculate_tag_overlap` (lines 297-319): 0 when either tag list is
empty, else `0.7·Jaccard + 0.3·precision` over the lowercased tag sets. -/
def calculate_tag_overlap (candidate : MemoryCandidate) (context : ScoringContext) : ℝ :=
  if context.query_tags.isEmpty || candidate.tags.isEmpty then 0
  else
    let query_tags_set := (context.query_tags.map strToLower).toFinset
    let candidate_tags_set := (candidate.tags.map strToLower).toFinset
    let intersection := query_tags_set ∩ candidate_tags_set
    let union := query_tags_set ∪ candidate_tags_set
    if union = ∅ then 0
    else
      let jaccard : ℝ := (intersection.card : ℝ) / (union.card : ℝ)
      let precision : ℝ :=
        if candidate_tags_set = ∅ then 0
        else (intersection.card : ℝ) / (candidate_tags_set.card : ℝ)
      0.7 * jaccard + 0.3 * precision

/-- The per-requirement contribution of `_calculate_metadata_match`
(lines 330-341): list membership scores 1, equality scores 1, a
case-insensitive substring match between strings scores 0.7, anything else
0. -/
def metadata_pair_score (candidate_value expected_value : MVal) : ℝ :=
  match expected_value with
  | .list vs =>
      match candidate_value with
      | .scalar v => if v ∈ vs then 1 else 0
      | .list _ => 0
  | _ =>
      if candidate_value = expected_value then 1
      else
        match candidate_value, expected_value with
        | .scalar (.s cv), .scalar (.s ev) =>
            if containsSub (strToLower cv) (strToLower ev) then 0.7 else 0
        | _, _ => 0

/-- `_calculate_metadata_match` (lines 321-343): neutral 0.5 with no
requirements, else the summed contributions over the requirement count. -/
def calculate_metadata_match (candidate : MemoryCandidate) (context : ScoringContext) : ℝ :=
  if context.metadata_requirements.isEmpty then 0.5
  else
    let total_requirements := context.metadata_requirements.length
    let matched : ℝ := context.metadata_requirements.foldl (fun acc kv =>
      match lookupKey candidate.metadata kv.1 with
      | none => acc
      | some cv => acc + metadata_pair_score cv kv.2) 0
    if total_requirements = 0 then 0.5 else matched / (total_requirements : ℝ)

/-- `_calculate_content_type_match` (lines 345-362): neutral 0.5 with no
preference (`None` or empty), else the fraction of the preference's
patterns matching the lowered content, capped at 1; 0 when the preference
names no pattern list. -/
def calculate_content_type_match (candidate : MemoryCandidate)
    (context : ScoringContext) : ℝ :=
  match context.content_type_preference with
  | none => 0.5
  | some pref =>
    if pref = "" then 0.5
    else
      let content_lower := strToLower candidate.content
      let patterns := (lookupKey content_type_patterns pref).getD []
      let matched :=
        (patterns.filter (fun alts => alts.any (fun a => containsSub content_lower a))).length
      if patterns.isEmpty then 0
      else min 1 ((matched : ℝ) / (patterns.length : ℝ))

/-- `_calculate_technology_alignment` (lines 364-386): neutral 0.5 with no
target technologies, else the fraction of targets whose keyword list hits
the content or the joined lowered tags. -/
def calculate_technology_alignment (candidate : MemoryCandidate)
    (context : ScoringContext) : ℝ :=
  if context.target_technologies.isEmpty then 0.5
  else
    let content_lower := strToLower candidate.content
    let tags_joined := " ".intercalate (candidate.tags.map strToLower)
    let aligned_techs := (context.target_technologies.filter (fun target_tech =>
      let tech_keywords' :=
        (lookupKey technology_keywords (strToLower target_tech)).getD [strToLower target_tech]
      tech_keywords'.any (fun k => containsSub content_lower k) ||
      tech_keywords'.any (fun k => containsSub tags_joined k))).length
    (aligned_techs : ℝ) / (context.target_technologies.length : ℝ)

/-- `_calculate_contextual_similarity` (lines 388-409): start at 0.5; task
category in content +0.2, among tags +0.3; error-context factor with an
error keyword present +0.3; capped at 1. -/
def calculate_contextual_similarity (candidate : MemoryCandidate)
    (context : ScoringContext) : ℝ :=
  let base : ℝ := 0.5
  let score :=
    if context.contextual_factors ≠ [] then
      let s1 :=
        match lookupKey context.contextual_factors ContextualFactor.TASK_CATEGORY with
        | some target_category =>
          let a := if containsSub (strToLower candidate.content) (strToLower target_category)
                   then base + 0.2 else base
          if (candidate.tags.map strToLower).contains (strToLower target_category)
          then a + 0.3 else a
        | none => base
      match lookupKey context.contextual_factors ContextualFactor.ERROR_CONTEXT with
      | some _ =>
        let error_indicators := ["error", "exception", "fix", "debug", "solution"]
        if error_indicators.any (fun ind => containsSub (strToLower candidate.content) ind)
        then s1 + 0.3 else s1
      | none => s1
    else base
  min 1 score

/-- `_calculate_usage_frequency` (lines 411-420): 0 for a non-positive
count, else `log(count+1)/log(10)` capped at 1. -/
def calculate_usage_frequency (candidate : MemoryCandidate) : ℝ :=
  if candidate.usage_count ≤ 0 then 0
  else min 1 (Real.log ((candidate.usage_count : ℝ) + 1) / Real.log 10)

/-- `_apply_contextual_adjustments` (lines 422-477).  The urgency branch
computes `datetime.now() - candidate.timestamp` with no `None` guard, so a
missing timestamp under `URGENCY_LEVEL = "high"` raises — the only failure
path of the scorer.  The three other adjustments are pure. -/
def apply_contextual_adjustments (base_score : ℝ) (candidate : MemoryCandidate)
    (context : ScoringContext) (now : Int) :
    Except String (ℝ × List String × List String) :=
  let factors := context.contextual_factors
  let content_lower := strToLower candidate.content
  let urgency_step : Except String (ℝ × List String) :=
    if factors ≠ [] ∧ (lookupKey factors ContextualFactor.URGENCY_LEVEL).isSome then
      if lookupKey factors ContextualFactor.URGENCY_LEVEL = some "high" then
        match candidate.timestamp with
        | none =>
          .error "TypeError: unsupported operand type(s) for -: \x27datetime.datetime\x27 and \x27NoneType\x27"
        | some ts =>
          if now - ts ≤ 7 then .ok (0.1, ["Recent memory for urgent task"])
          else .ok (0, [])
      else .ok (0, [])
    else .ok (0, [])
  match urgency_step with
  | .error e => .error e
  | .ok (d1, b1) =>
    let complexity_step : ℝ × List String :=
      if factors ≠ [] ∧ (lookupKey factors ContextualFactor.COMPLEXITY_LEVEL).isSome then
        match lookupKey factors ContextualFactor.COMPLEXITY_LEVEL with
        | some complexity =>
          let inds :=
            if complexity = "simple" then some ["simple", "basic", "easy", "straightforward"]
            else if complexity = "complex" then
              some ["complex", "advanced", "sophisticated", "intricate"]
            else none
          match inds with
          | some il =>
            if il.any (fun ind => containsSub content_lower ind) then
              (0.05, ["Complexity alignment (" ++ complexity ++ ")"])
            else (0, [])
          | none => (0, [])
        | none => (0, [])
      else (0, [])
    let domain_step : ℝ × List String :=
      if factors ≠ [] ∧ (lookupKey factors ContextualFactor.DOMAIN_SPECIFICITY).isSome then
        match lookupKey factors ContextualFactor.DOMAIN_SPECIFICITY with
        | some domain =>
          if domain ≠ "" ∧ ¬(containsSub content_lower (strToLower domain) = true) then
            (-0.05, ["Domain mismatch"])
          else (0, [])
        | none => (0, [])
      else (0, [])
    let stage_step : ℝ × List String :=
      if factors ≠ [] ∧ (lookupKey factors ContextualFactor.IMPLEMENTATION_STAGE).isSome then
        match lookupKey factors ContextualFactor.IMPLEMENTATION_STAGE with
        | some stage =>
          let kw :=
            if stage = "planning" then some ["plan", "design", "architecture", "strategy"]
            else if stage = "development" then some ["implement", "code", "build", "develop"]
            else if stage = "testing" then some ["test", "verify", "validate", "check"]
            else if stage = "deployment" then some ["deploy", "release", "production", "launch"]
            else if stage = "maintenance" then some ["maintain", "update", "patch", "fix"]
            else none
          match kw with
          | some kl =>
            if kl.any (fun k => containsSub content_lower k) then
              (0.08, ["Implementation stage match (" ++ stage ++ ")"])
            else (0, [])
          | none => (0, [])
        | none => (0, [])
      else (0, [])
    .ok (base_score + d1 + complexity_step.1 + domain_step.1 + stage_step.1,
         b1 ++ complexity_step.2 ++ stage_step.2,
         domain_step.2)

/-- `_calculate_confidence` (lines 479-501). -/
def calculate_confidence (dimension_scores : List (ScoreDimension × ℝ))
    (total_score : ℝ) : ℝ :=
  let high_scores := (dimension_scores.filter (fun p => decide ((0.7 : ℝ) < p.2))).length
  let low_scores := (dimension_scores.filter (fun p => decide (p.2 < (0.3 : ℝ)))).length
  let base_confidence : ℝ :=
    if 3 ≤ high_scores then 0.9
    else if 2 ≤ high_scores then 0.8
    else if 4 ≤ low_scores then 0.4
    else 0.6
  if (0.9 : ℝ) < total_score ∨ total_score < (0.1 : ℝ) then base_confidence * 0.9
  else base_confidence

/-- `_generate_reasoning` (lines 503-525): dimensions sorted descending,
top three kept when above 0.6, then booster / penalty summaries. -/
def generate_reasoning (dimension_scores : List (ScoreDimension × ℝ))
    (boosters penalties : List String) : List ReasoningEntry :=
  let sorted_dimensions := sortStableBy (fun a b => decide (b.2 ≤ a.2)) dimension_scores
  let top_dimensions := sorted_dimensions.take 3
  (top_dimensions.filter (fun p => decide ((0.6 : ℝ) < p.2))).map
    (fun p => ReasoningEntry.dimension p.1 p.2) ++
  (if boosters.isEmpty then [] else [ReasoningEntry.positive (boosters.take 3)]) ++
  (if penalties.isEmpty then [] else [ReasoningEntry.limiting (penalties.take 2)])

/-- `score_relevance` (lines 170-261): the eight dimension scores, their
weighted sum, the sequential contextual adjustments, then the clamp of the
total to [0, 1]. -/
def score_relevance (candidate : MemoryCandidate) (context : ScoringContext)
    (weights0 : Option ScoringWeights) (now : Int) : Except String RelevanceScore :=
  let weights := weights0.getD default_weights
  let semantic_score := candidate.base_similarity_score
  let semantic_marks : List String × List String :=
    if (0.8 : ℝ) < semantic_score then (["High semantic similarity"], [])
    else if semantic_score < (0.3 : ℝ) then ([], ["Low semantic similarity"])
    else ([], [])
  let temporal_score := calculate_temporal_relevance candidate context now
  let tag_score := calculate_tag_overlap candidate context
  let tag_boost : List String :=
    if (0.7 : ℝ) < tag_score then ["Strong tag alignment"] else []
  let metadata_score := calculate_metadata_match candidate context
  let content_type_score := calculate_content_type_match candidate context
  let tech_score := calculate_technology_alignment candidate context
  let tech_boost : List String :=
    if (0.8 : ℝ) < tech_score then ["Perfect technology match"] else []
  let contextual_score := calculate_contextual_similarity candidate context
  let usage_score := calculate_usage_frequency candidate
  let dimension_scores : List (ScoreDimension × ℝ) :=
    [(.SEMANTIC_SIMILARITY, semantic_score),
     (.TEMPORAL_RELEVANCE, temporal_score),
     (.TAG_OVERLAP, tag_score),
     (.METADATA_MATCH, metadata_score),
     (.CONTENT_TYPE_MATCH, content_type_score),
     (.TECHNOLOGY_ALIGNMENT, tech_score),
     (.CONTEXTUAL_SIMILARITY, contextual_score),
     (.USAGE_FREQUENCY, usage_score)]
  let boosters0 := semantic_marks.1 ++ tag_boost ++ tech_boost
  let penalties0 := semantic_marks.2
  let total_score0 :=
    semantic_score * weights.semantic_similarity +
    temporal_score * weights.temporal_relevance +
    tag_score * weights.tag_overlap +
    metadata_score * weights.metadata_match +
    content_type_score * weights.content_type_match +
    tech_score * weights.technology_alignment +
    contextual_score * weights.contextual_similarity +
    usage_score * weights.usage_frequency
  match apply_contextual_adjustments total_score0 candidate context now with
  | .error e => .error e
  | .ok (total_score, new_boosters, new_penalties) =>
    let boosters := boosters0 ++ new_boosters
    let penalties := penalties0 ++ new_penalties
    let confidence := calculate_confidence dimension_scores total_score
    let reasoning := generate_reasoning dimension_scores boosters penalties
    .ok { total_score := min 1 (max 0 total_score),
          dimension_scores := dimension_scores,
          confidence := confidence,
          reasoning := reasoning,
          boosters := boosters,
          penalties := penalties }

/-- `get_optimal_weights_for_context` (lines 552-576): sequential field
adjustments on a fresh default profile; nothing renormalizes the result. -/
def get_optimal_weights_for_context (context : ScoringContext) : ScoringWeights :=
  let weights : ScoringWeights := {}
  let weights :=
    if context.temporal_preference = some "recent" then
      { weights with temporal_relevance := 0.25, semantic_similarity := 0.25 }
    else weights
  let weights :=
    match context.content_type_preference with
    | some s =>
      if s ≠ "" then { weights with content_type_match := 0.20, semantic_similarity := 0.25 }
      else weights
    | none => weights
  let weights :=
    if ¬context.target_technologies.isEmpty then
      { weights with technology_alignment := 0.20, tag_overlap := 0.25 }
    else weights
  let weights :=
    if context.contextual_factors ≠ [] ∧
        (lookupKey context.contextual_factors ContextualFactor.ERROR_CONTEXT).isSome then
      { weights with semantic_similarity := 0.40, content_type_match := 0.25,
                     temporal_relevance := 0.10 }
    else weights
  weights

/-- The sum of the eight weight components. -/
def sum_weights (w : ScoringWeights) : ℝ :=
  w.semantic_similarity + w.temporal_relevance + w.tag_overlap + w.metadata_match +
  w.content_type_match + w.technology_alignment + w.contextual_similarity +
  w.usage_frequency

end

/-! ## Lemmas about the stable sort -/

theorem mem_insStable {le : α → α → Bool} {x a : α} {l : List α} :
    a ∈ insStable le x l ↔ a = x ∨ a ∈ l := by
  induction l with
  | nil => simp [insStable]
  | cons y ys ih =>
    simp only [insStable]
    by_cases hyx : le y x = true
    · rw [if_pos hyx]
      simp only [List.mem_cons, ih]
      tauto
    · rw [if_neg hyx]
      simp only [List.mem_cons]

theorem length_insStable {le : α → α → Bool} (x : α) (l : List α) :
    (insStable le x l).length = l.length + 1 := by
  induction l with
  | nil => rfl
  | cons y ys ih =>
    cases hyx : le y x with
    | true => simp [insStable, hyx, ih]
    | false => simp [insStable, hyx]

theorem mem_foldl_insStable {le : α → α → Bool} :
    ∀ (l : List α) (acc : List α) (a : α),
      a ∈ l.foldl (fun acc x => insStable le x acc) acc → a ∈ acc ∨ a ∈ l := by
  intro l
  induction l with
  | nil => intro acc a h; exact Or.inl h
  | cons x xs ih =>
    intro acc a h
    rcases ih _ a h with h' | h'
    · rcases mem_insStable.1 h' with rfl | h''
      · exact Or.inr (List.mem_cons_self _ _)
      · exact Or.inl h''
    · exact Or.inr (List.mem_cons_of_mem _ h')

theorem mem_of_mem_sortStableBy {le : α → α → Bool} {l : List α} {a : α}
    (h : a ∈ sortStableBy le l) : a ∈ l := by
  rcases mem_foldl_insStable l [] a h with h' | h'
  · cases h'
  · exact h'

theorem length_foldl_insStable {le : α → α → Bool} :
    ∀ (l : List α) (acc : List α),
      (l.foldl (fun acc x => insStable le x acc) acc).length = acc.length + l.length := by
  intro l
  induction l with
  | nil => intro acc; rfl
  | cons x xs ih =>
    intro acc
    simp only [List.foldl, ih, length_insStable, List.length_cons]
    omega

theorem length_sortStableBy {le : α → α → Bool} (l : List α) :
    (sortStableBy le l).length = l.length := by
  simpa using @length_foldl_insStable α le l []

theorem foldl_insStable_head {le : α → α → Bool} {x : α} :
    ∀ (l : List α) (t : List α), (∀ y ∈ l, le x y = true) →
      ∃ t', l.foldl (fun acc z => insStable le z acc) (x :: t) = x :: t' := by
  intro l
  induction l with
  | nil => exact fun t _ => ⟨t, rfl⟩
  | cons y ys ih =>
    intro t h
    have hxy : le x y = true := h y (by simp)
    simp only [List.foldl, insStable, hxy, if_true]
    exact ih (insStable le y t) (fun z hz => h z (by simp [hz]))

theorem sortStableBy_cons_min {le : α → α → Bool} {x : α} {rest : List α}
    (h : ∀ y ∈ rest, le x y = true) :
    ∃ t, sortStableBy le (x :: rest) = x :: t := by
  have hrw : sortStableBy le (x :: rest) =
      rest.foldl (fun acc z => insStable le z acc) [x] := rfl
  rw [hrw]
  exact foldl_insStable_head rest [] h

/-! ## Lemmas about the execution loop -/

theorem run_preserves_not_active (ex : AgentInvocation → Except String AgentResult)
    (t : AgentType) :
    ∀ (invs : List AgentInvocation) (s : OrchestratorState),
      t ∉ s.active_agents →
      t ∉ (execute_invocations_with ex invs s).1.active_agents := by
  intro invs
  induction invs with
  | nil => intro s h; exact h
  | cons inv rest ih =>
    intro s h
    unfold execute_invocations_with
    by_cases hmem : inv.agent_type ∈ s.active_agents
    · rw [if_pos hmem]
      exact ih _ (fun hc => h (Finset.mem_of_mem_erase hc))
    · rw [if_neg hmem]
      have hnot : t ∉ (insert inv.agent_type s.active_agents).erase inv.agent_type := by
        intro hc
        rcases Finset.mem_insert.mp (Finset.mem_of_mem_erase hc) with rfl | h3
        · exact Finset.ne_of_mem_erase hc rfl
        · exact h h3
      cases hex : ex inv with
      | ok r => exact ih _ hnot
      | error e => exact ih _ hnot

theorem run_clears_mentioned (ex : AgentInvocation → Except String AgentResult) :
    ∀ (invs : List AgentInvocation) (s : OrchestratorState) (inv : AgentInvocation),
      inv ∈ invs →
      inv.agent_type ∉ (execute_invocations_with ex invs s).1.active_agents := by
  intro invs
  induction invs with
  | nil => intro s inv h; cases h
  | cons a rest ih =>
    intro s inv h
    unfold execute_invocations_with
    by_cases hmem : a.agent_type ∈ s.active_agents
    · rw [if_pos hmem]
      cases h with
      | head =>
        exact run_preserves_not_active ex _ rest _ (Finset.not_mem_erase _ _)
      | tail _ h' => exact ih _ _ h'
    · rw [if_neg hmem]
      cases hex : ex a with
      | ok r =>
        cases h with
        | head =>
          exact run_preserves_not_active ex _ rest _ (Finset.not_mem_erase _ _)
        | tail _ h' => exact ih _ _ h'
      | error e =>
        cases h with
        | head =>
          exact run_preserves_not_active ex _ rest _ (Finset.not_mem_erase _ _)
        | tail _ h' => exact ih _ _ h'

/-! ## Claims -/

/-- C1: the spec states that `decompose_task` never raises for well-formed
string input and that empty text yields a degenerate decomposition with the
default IMPLEMENTATION category; in fact the code raises `AttributeError`
on the empty string (and every other input), because `_identify_components`
calls the never-defined method `_generate_search_terms` (and, further down,
`_generate_success_criteria` references the nonexistent member
`TaskCategory.PERFORMANCE`). -/
theorem decompose_task_raises_on_empty_input :
    decompose_task "" =
      .error "AttributeError: \x27TaskDecomposer\x27 object has no attribute \x27_generate_search_terms\x27" :=
  rfl

/-- C2 (counterexample): on
`"We decided to use PostgreSQL instead of MongoDB for ACID transactions"`,
`analyze_context` returns only the memory-store invocation; contrary to the
claim, no `memory-context` (task-context) invocation is produced — "use" is
not among the task indicators. -/
theorem analyze_context_scenario_a_counterexample :
    ((analyze_context "We decided to use PostgreSQL instead of MongoDB for ACID transactions" []).map
        (fun i => i.agent_type) = [AgentType.MEMORY_STORE]) ∧
    AgentType.MEMORY_CONTEXT ∉
      (analyze_context "We decided to use PostgreSQL instead of MongoDB for ACID transactions" []).map
        (fun i => i.agent_type) :=
  ⟨by decide, by decide⟩

/-- C2 (amended): on that input, `analyze_context` returns exactly one
invocation — agent type memory-store, trigger DECISION_MADE, priority 1 —
and in particular no task-context invocation. -/
theorem analyze_context_scenario_a :
    (analyze_context "We decided to use PostgreSQL instead of MongoDB for ACID transactions" []).map
      (fun i => (i.agent_type, i.trigger, i.priority)) =
    [(AgentType.MEMORY_STORE, TriggerCondition.DECISION_MADE, 1)] := by
  decide

/-- C8: after `execute_invocations` returns (under any executor, the stub
included), no agent type of any input invocation remains in the active set:
the `finally` clause discards it on every path, including the skip path,
where it removes a mark the skipped invocation did not set. -/
theorem execute_invocations_clears_active_agents
    (ex : AgentInvocation → Except String AgentResult)
    (invs : List AgentInvocation) (s : OrchestratorState)
    (inv : AgentInvocation) (hmem : inv ∈ invs) :
    inv.agent_type ∉ (execute_invocations_with ex invs s).1.active_agents ∧
    inv.agent_type ∉ (execute_invocations invs s).1.active_agents :=
  ⟨run_clears_mentioned ex invs s inv hmem,
   run_clears_mentioned _ invs s inv hmem⟩

/-- A sample invocation for concrete instantiations. -/
def sample_invocation : AgentInvocation :=
  { agent_type := .MEMORY_STORE, trigger := .DECISION_MADE, context := [] }

/-- A state in which the sample invocation's agent type is already marked
active, so that executing it takes the skip path. -/
def sample_state_active : OrchestratorState :=
  { active_agents := {AgentType.MEMORY_STORE}, agent_history := [] }

theorem execute_invocations_clears_active_agents_witness :
    sample_invocation ∈ [sample_invocation] ∧
    (sample_invocation.agent_type ∉
      (execute_invocations_with (fun i => .ok (execute_single_agent i))
        [sample_invocation] sample_state_active).1.active_agents ∧
     sample_invocation.agent_type ∉
      (execute_invocations [sample_invocation] sample_state_active).1.active_agents) :=
  ⟨List.mem_singleton.mpr rfl,
   execute_invocations_clears_active_agents (fun i => .ok (execute_single_agent i))
     [sample_invocation] sample_state_active sample_invocation
     (List.mem_singleton.mpr rfl)⟩

/-- C9: when the single-agent call of an invocation raises, the loop
records a failed `AgentResult` (success false, error captured) in the
returned results but leaves `agent_history` untouched, and the remaining
invocations still execute from the cleaned-up state; when it succeeds, the
result is appended to both the results and the history. -/
theorem execute_invocations_error_isolation
    (ex : AgentInvocation → Except String AgentResult)
    (inv : AgentInvocation) (rest : List AgentInvocation) (s : OrchestratorState)
    (hactive : inv.agent_type ∉ s.active_agents) :
    (∀ e, ex inv = .error e →
      execute_invocations_with ex (inv :: rest) s =
        ((execute_invocations_with ex rest
            { active_agents := (insert inv.agent_type s.active_agents).erase inv.agent_type,
              agent_history := s.agent_history }).1,
         failed_result inv e ::
           (execute_invocations_with ex rest
             { active_agents := (insert inv.agent_type s.active_agents).erase inv.agent_type,
               agent_history := s.agent_history }).2)) ∧
    (∀ r, ex inv = .ok r →
      execute_invocations_with ex (inv :: rest) s =
        ((execute_invocations_with ex rest
            { active_agents := (insert inv.agent_type s.active_agents).erase inv.agent_type,
              agent_history := s.agent_history ++ [r] }).1,
         r :: (execute_invocations_with ex rest
             { active_agents := (insert inv.agent_type s.active_agents).erase inv.agent_type,
               agent_history := s.agent_history ++ [r] }).2)) := by
  constructor
  · intro e he
    conv_lhs => rw [execute_invocations_with]
    rw [if_neg hactive, he]
  · intro r hr
    conv_lhs => rw [execute_invocations_with]
    rw [if_neg hactive, hr]

/-- A state with nothing active and an empty history. -/
def sample_state_empty : OrchestratorState :=
  { active_agents := ∅, agent_history := [] }

/-! ## Lemmas for the context builder -/

theorem one_le_priority_value (p : Priority) : 1 ≤ p.value := by
  cases p <;> simp [Priority.value]

theorem one_le_max_items (st : ContextSectionType) :
    1 ≤ get_max_items_for_section st := by
  cases st <;> simp [get_max_items_for_section]

theorem create_context_sections_items_ne_nil
    {sd : List (ContextSectionType × List ContextItem)} {s : ContextSection}
    (h : s ∈ create_context_sections sd) : s.items ≠ [] := by
  unfold create_context_sections at h
  rcases List.mem_filterMap.mp h with ⟨a, _, ha⟩
  by_cases he : a.2.isEmpty
  · rw [if_pos he] at ha
    cases ha
  · rw [if_neg he] at ha
    have hmk := Option.some.inj ha
    have hitems : s.items =
        (sortStableBy (fun x y => decide (y.relevance_score ≤ x.relevance_score)) a.2).take
          (get_max_items_for_section a.1) := by
      rw [← hmk]
    have hne : a.2 ≠ [] := by
      intro hc
      rw [hc] at he
      exact he rfl
    intro hnil
    rw [hnil] at hitems
    have hlen : 0 = min (get_max_items_for_section a.1) a.2.length := by
      have := congrArg List.length hitems
      simpa [List.length_take, length_sortStableBy] using this
    rcases Nat.eq_zero_of_le_zero (le_of_eq (congrArg id hlen).symm) with h0
    have hmin := hlen.symm
    rcases Nat.min_eq_zero_iff.mp hmin with hmax | hl
    · exact absurd hmax (by have := one_le_max_items a.1; omega)
    · exact hne (List.length_eq_zero.mp hl)

theorem add_special_sections_shape
    (cs : List ContextSection) (items : List ContextItem)
    (d : TaskDecomposition) (now : Int) :
    add_special_sections cs items d now = create_overview_section items d now :: cs ∨
    ∃ r, add_special_sections cs items d now =
        create_overview_section items d now :: (cs ++ [r]) ∧ r.items ≠ [] := by
  unfold add_special_sections
  by_cases hr : (items.filter (fun i => decide (now - 30 < i.timestamp))).isEmpty
  · left
    simp [hr]
  · right
    refine
      ⟨{ section_type := .RECENT_RELATED_WORK,
         title := "Recent Related Work",
         items := (items.filter (fun i => decide (now - 30 < i.timestamp))).take 5,
         priority := .LOW,
         summary := some ("Recent work from the last 30 days ("
           ++ toString (items.filter (fun i => decide (now - 30 < i.timestamp))).length
           ++ " items found)") }, ?_, ?_⟩
    · simp [hr]
    · have hne : items.filter (fun i => decide (now - 30 < i.timestamp)) ≠ [] := by
        intro hc
        rw [hc] at hr
        exact hr rfl
      intro hc
      rcases List.take_eq_nil_iff.mp hc with h5 | hnil
      · cases h5
      · exact hne hnil

/-- C4: `assemble_context` always returns a non-empty section list whose
first section, after the stable ascending priority sort, is the
unconditionally synthesized OVERVIEW section with priority CRITICAL and
exactly one synthetic item; and no section in the result has an empty item
list. -/
theorem assemble_context_overview_first
    (decomposition : TaskDecomposition)
    (memory_results : List (String × List RawResult)) (now : Int) :
    (assemble_context decomposition memory_results now).sections ≠ [] ∧
    ((assemble_context decomposition memory_results now).sections.head?.map
        (fun s => (s.section_type, s.priority, s.items.length)) =
      some (ContextSectionType.OVERVIEW, Priority.CRITICAL, 1)) ∧
    ∀ s ∈ (assemble_context decomposition memory_results now).sections, s.items ≠ [] := by
  have hsec : (assemble_context decomposition memory_results now).sections =
      sortStableBy (fun a b => decide (a.priority.value ≤ b.priority.value))
        (add_special_sections
          (create_context_sections (group_items_by_section
            (parse_memory_results memory_results decomposition now)))
          (parse_memory_results memory_results decomposition now) decomposition now) := rfl
  have hle_ov : ∀ y : ContextSection,
      (fun a b : ContextSection => decide (a.priority.value ≤ b.priority.value))
        (create_overview_section (parse_memory_results memory_results decomposition now)
          decomposition now) y = true := by
    intro y
    simp only [decide_eq_true_eq]
    exact one_le_priority_value y.priority
  rcases add_special_sections_shape
      (create_context_sections (group_items_by_section
        (parse_memory_results memory_results decomposition now)))
      (parse_memory_results memory_results decomposition now) decomposition now with
    hshape | ⟨r, hshape, hrne⟩
  · obtain ⟨t, ht⟩ := @sortStableBy_cons_min ContextSection
      (fun a b => decide (a.priority.value ≤ b.priority.value))
      (create_overview_section (parse_memory_results memory_results decomposition now)
        decomposition now)
      (create_context_sections (group_items_by_section
        (parse_memory_results memory_results decomposition now)))
      (fun y _ => hle_ov y)
    rw [hshape] at hsec
    rw [ht] at hsec
    refine ⟨by rw [hsec]; simp, by rw [hsec]; rfl, ?_⟩
    intro s hs
    have hmem : s ∈ create_overview_section (parse_memory_results memory_results decomposition now)
        decomposition now :: create_context_sections (group_items_by_section
          (parse_memory_results memory_results decomposition now)) := by
      rw [← hshape]
      apply mem_of_mem_sortStableBy
      rw [← ht, ← hshape] at hsec
      rw [hsec] at hs
      exact hs
    cases hmem with
    | head => simp [create_overview_section]
    | tail _ hmem' => exact create_context_sections_items_ne_nil hmem'
  · obtain ⟨t, ht⟩ := @sortStableBy_cons_min ContextSection
      (fun a b => decide (a.priority.value ≤ b.priority.value))
      (create_overview_section (parse_memory_results memory_results decomposition now)
        decomposition now)
      (create_context_sections (group_items_by_section
        (parse_memory_results memory_results decomposition now)) ++ [r])
      (fun y _ => hle_ov y)
    rw [hshape] at hsec
    rw [ht] at hsec
    refine ⟨by rw [hsec]; simp, by rw [hsec]; rfl, ?_⟩
    intro s hs
    have hmem : s ∈ create_overview_section (parse_memory_results memory_results decomposition now)
        decomposition now :: (create_context_sections (group_items_by_section
          (parse_memory_results memory_results decomposition now)) ++ [r]) := by
      rw [← hshape]
      apply mem_of_mem_sortStableBy
      rw [← ht, ← hshape] at hsec
      rw [hsec] at hs
      exact hs
    cases hmem with
    | head => simp [create_overview_section]
    | tail _ hmem' =>
      rcases List.mem_append.mp hmem' with hcs | hr1
      · exact create_context_sections_items_ne_nil hcs
      · rw [List.mem_singleton.mp hr1]
        exact hrne

theorem execute_invocations_error_isolation_witness :
    sample_invocation.agent_type ∉ sample_state_empty.active_agents ∧
    execute_invocations_with (fun _ => .error "boom") (sample_invocation :: []) sample_state_empty =
      ((execute_invocations_with (fun _ => .error "boom") []
          { active_agents :=
              (insert sample_invocation.agent_type sample_state_empty.active_agents).erase
                sample_invocation.agent_type,
            agent_history := sample_state_empty.agent_history }).1,
       failed_result sample_invocation "boom" ::
         (execute_invocations_with (fun _ => .error "boom") []
           { active_agents :=
               (insert sample_invocation.agent_type sample_state_empty.active_agents).erase
                 sample_invocation.agent_type,
             agent_history := sample_state_empty.agent_history }).2) :=
  ⟨by decide,
   (execute_invocations_error_isolation (fun _ => .error "boom") sample_invocation []
      sample_state_empty (by decide)).1 "boom" rfl⟩

/-- A minimal decomposition for concrete instantiation. -/
def sample_decomposition : TaskDecomposition :=
  { original_task := "", primary_category := .IMPLEMENTATION, components := [],
    context_queries := [], technologies_involved := [],
    estimated_duration := "1-2 hours", risk_factors := ["Low risk task"],
    success_criteria := [] }

theorem assemble_context_overview_first_witness :
    (assemble_context sample_decomposition [] 0).sections ≠ [] ∧
    ((assemble_context sample_decomposition [] 0).sections.head?.map
        (fun s => (s.section_type, s.priority, s.items.length)) =
      some (ContextSectionType.OVERVIEW, Priority.CRITICAL, 1)) ∧
    ∀ s ∈ (assemble_context sample_decomposition [] 0).sections, s.items ≠ [] :=
  assemble_context_overview_first sample_decomposition [] 0

/-! ## Lemmas and claims for the relevance scorer -/

/-- C5: the tag-overlap dimension is exactly 0 when either tag list is
empty or the case-folded tag sets are disjoint, and exactly 1 when the two
case-folded tag sets are equal and non-empty. -/
theorem tag_overlap_extremes (candidate : MemoryCandidate) (context : ScoringContext) :
    ((context.query_tags = [] ∨ candidate.tags = []) →
        calculate_tag_overlap candidate context = 0) ∧
    ((context.query_tags.map strToLower).toFinset ∩
        (candidate.tags.map strToLower).toFinset = ∅ →
      calculate_tag_overlap candidate context = 0) ∧
    (context.query_tags ≠ [] → candidate.tags ≠ [] →
      (context.query_tags.map strToLower).toFinset =
        (candidate.tags.map strToLower).toFinset →
      calculate_tag_overlap candidate context = 1) := by
  refine ⟨?_, ?_, ?_⟩
  · intro h
    rcases h with h | h <;> simp [calculate_tag_overlap, h]
  · intro hI
    simp only [calculate_tag_overlap]
    by_cases h0 : (context.query_tags.isEmpty || candidate.tags.isEmpty) = true
    · rw [if_pos h0]
    · rw [if_neg h0]
      by_cases hU : (context.query_tags.map strToLower).toFinset ∪
          (candidate.tags.map strToLower).toFinset = ∅
      · rw [if_pos hU]
      · rw [if_neg hU]
        rw [hI]
        by_cases hC : (candidate.tags.map strToLower).toFinset = ∅
        · rw [if_pos hC]
          simp
        · rw [if_neg hC]
          simp
  · intro hq hc hQC
    have h0 : (context.query_tags.isEmpty || candidate.tags.isEmpty) = false := by
      cases hql : context.query_tags with
      | nil => exact absurd hql hq
      | cons a l =>
        cases hcl : candidate.tags with
        | nil => exact absurd hcl hc
        | cons b m => simp
    simp only [calculate_tag_overlap, h0, Bool.false_eq_true, if_false]
    have hCne : (candidate.tags.map strToLower).toFinset ≠ ∅ := by
      intro h
      rcases List.toFinset_eq_empty_iff _ |>.mp h with h'
      exact hc (List.map_eq_nil_iff.mp h')
    have hU : (context.query_tags.map strToLower).toFinset ∪
        (candidate.tags.map strToLower).toFinset ≠ ∅ := by
      rw [hQC, Finset.union_self]
      exact hCne
    rw [if_neg hU, hQC, Finset.union_self, Finset.inter_self, if_neg hCne]
    have hcard : ((candidate.tags.map strToLower).toFinset.card : ℝ) ≠ 0 := by
      have : (candidate.tags.map strToLower).toFinset.card ≠ 0 := by
        intro h
        exact hCne (Finset.card_eq_zero.mp h)
      exact_mod_cast this
    rw [div_self hcard]
    norm_num

/-- The query-side tags and candidate used to instantiate the tag-overlap
claim: identical tag sets up to case. -/
noncomputable def sample_tag_candidate : MemoryCandidate :=
  { content := "", tags := ["Python", "API"], metadata := [], timestamp := none,
    content_hash := "" }

/-- A scoring context whose query tags case-fold to the sample candidate's. -/
noncomputable def sample_tag_context : ScoringContext :=
  { query_text := "", query_tags := ["api", "python"], target_technologies := [],
    task_category := "" }

theorem tag_overlap_extremes_witness :
    (sample_tag_context.query_tags ≠ [] ∧ sample_tag_candidate.tags ≠ [] ∧
      (sample_tag_context.query_tags.map strToLower).toFinset =
        (sample_tag_candidate.tags.map strToLower).toFinset) ∧
    calculate_tag_overlap sample_tag_candidate sample_tag_context = 1 :=
  ⟨⟨by decide, by decide, by decide⟩,
   (tag_overlap_extremes sample_tag_candidate sample_tag_context).2.2
     (by decide) (by decide) (by decide)⟩

/-- C6: under the default temporal preference (unset or "any"), the
temporal dimension is non-increasing in candidate age — an older timestamp
never scores higher. -/
theorem temporal_default_monotone (candidate : MemoryCandidate)
    (context : ScoringContext) (now t1 t2 : Int)
    (hpref : context.temporal_preference = none ∨
             context.temporal_preference = some "any")
    (holder : t2 ≤ t1) :
    calculate_temporal_relevance { candidate with timestamp := some t2 } context now ≤
      calculate_temporal_relevance { candidate with timestamp := some t1 } context now := by
  have hnr : ¬(context.temporal_preference = some "recent") := by
    rcases hpref with h | h <;> simp [h]
  have hnh : ¬(context.temporal_preference = some "historical") := by
    rcases hpref with h | h <;> simp [h]
  simp only [calculate_temporal_relevance]
  rw [if_neg hnr, if_neg hnh, if_neg hnr, if_neg hnh]
  split_ifs <;> try norm_num
  all_goals omega

/-- A candidate with no distinguishing fields, for concrete instantiation. -/
noncomputable def sample_memory_candidate : MemoryCandidate :=
  { content := "", tags := [], metadata := [], timestamp := none, content_hash := "" }

/-- A scoring context with every optional field unset. -/
noncomputable def sample_plain_context : ScoringContext :=
  { query_text := "", query_tags := [], target_technologies := [], task_category := "" }

theorem temporal_default_monotone_witness :
    (sample_plain_context.temporal_preference = none ∨
      sample_plain_context.temporal_preference = some "any") ∧
    ((-730 : Int) ≤ -1) ∧
    calculate_temporal_relevance { sample_memory_candidate with timestamp := some (-730) }
        sample_plain_context 0 ≤
      calculate_temporal_relevance { sample_memory_candidate with timestamp := some (-1) }
        sample_plain_context 0 :=
  ⟨Or.inl rfl, by norm_num,
   temporal_default_monotone sample_memory_candidate sample_plain_context 0 (-1) (-730)
     (Or.inl rfl) (by norm_num)⟩

/-- C7: there is a scoring context (temporal preference "recent") whose
context-adjusted weight profile does not sum to 1 — the adjusted weights
are not renormalized. -/
theorem optimal_weights_not_normalized :
    ∃ context : ScoringContext,
      sum_weights (get_optimal_weights_for_context context) ≠ 1 := by
  refine ⟨{ query_text := "", query_tags := [], target_technologies := [],
            task_category := "", temporal_preference := some "recent" }, ?_⟩
  norm_num [get_optimal_weights_for_context, sum_weights, lookupKey]

theorem apply_contextual_adjustments_ok (candidate : MemoryCandidate)
    (context : ScoringContext) (now : Int)
    (hne : candidate.timestamp ≠ none ∨
      lookupKey context.contextual_factors ContextualFactor.URGENCY_LEVEL ≠ some "high") :
    ∀ b, ∃ r, apply_contextual_adjustments b candidate context now = .ok r := by
  intro b
  simp only [apply_contextual_adjustments]
  by_cases h1 : context.contextual_factors ≠ [] ∧
      (lookupKey context.contextual_factors ContextualFactor.URGENCY_LEVEL).isSome
  · rw [if_pos h1]
    by_cases h2 :
        lookupKey context.contextual_factors ContextualFactor.URGENCY_LEVEL = some "high"
    · rw [if_pos h2]
      cases hc : candidate.timestamp with
      | none =>
        rcases hne with h | h
        · exact absurd hc h
        · exact absurd h2 h
      | some ts =>
        dsimp only
        by_cases h3 : now - ts ≤ 7
        · rw [if_pos h3]
          exact ⟨_, rfl⟩
        · rw [if_neg h3]
          exact ⟨_, rfl⟩
    · rw [if_neg h2]
      exact ⟨_, rfl⟩
  · rw [if_neg h1]
    exact ⟨_, rfl⟩

theorem apply_contextual_adjustments_error (candidate : MemoryCandidate)
    (context : ScoringContext) (now : Int)
    (hts : candidate.timestamp = none)
    (hl : lookupKey context.contextual_factors ContextualFactor.URGENCY_LEVEL = some "high") :
    ∀ b, apply_contextual_adjustments b candidate context now =
      .error "TypeError: unsupported operand type(s) for -: \x27datetime.datetime\x27 and \x27NoneType\x27" := by
  intro b
  have hfac : context.contextual_factors ≠ [] := by
    intro h
    rw [h] at hl
    simp [lookupKey] at hl
  have hsome : (lookupKey context.contextual_factors ContextualFactor.URGENCY_LEVEL).isSome := by
    rw [hl]
    rfl
  simp only [apply_contextual_adjustments]
  rw [if_pos ⟨hfac, hsome⟩, if_pos hl, hts]

theorem score_relevance_ok_of (candidate : MemoryCandidate) (context : ScoringContext)
    (weights0 : Option ScoringWeights) (now : Int)
    (hne : candidate.timestamp ≠ none ∨
      lookupKey context.contextual_factors ContextualFactor.URGENCY_LEVEL ≠ some "high") :
    ∃ sc, score_relevance candidate context weights0 now = .ok sc := by
  simp only [score_relevance]
  obtain ⟨⟨ts', nb, np⟩, hr⟩ := apply_contextual_adjustments_ok candidate context now hne _
  rw [hr]
  exact ⟨_, rfl⟩

theorem score_relevance_error_of (candidate : MemoryCandidate) (context : ScoringContext)
    (weights0 : Option ScoringWeights) (now : Int)
    (hts : candidate.timestamp = none)
    (hl : lookupKey context.contextual_factors ContextualFactor.URGENCY_LEVEL = some "high") :
    score_relevance candidate context weights0 now =
      .error "TypeError: unsupported operand type(s) for -: \x27datetime.datetime\x27 and \x27NoneType\x27" := by
  simp only [score_relevance]
  rw [apply_contextual_adjustments_error candidate context now hts hl _]

/-- C10: with a missing (`None`) timestamp, the temporal dimension
substitutes the neutral 0.5, and `score_relevance` completes exactly when
the contextual factors do not map URGENCY_LEVEL to "high"; in the
high-urgency case the unguarded `datetime.now() - None` subtraction
raises. -/
theorem score_relevance_missing_timestamp (candidate : MemoryCandidate)
    (context : ScoringContext) (weights0 : Option ScoringWeights) (now : Int)
    (hts : candidate.timestamp = none) :
    calculate_temporal_relevance candidate context now = 0.5 ∧
    (lookupKey context.contextual_factors ContextualFactor.URGENCY_LEVEL ≠ some "high" →
      ∃ sc, score_relevance candidate context weights0 now = .ok sc) ∧
    (lookupKey context.contextual_factors ContextualFactor.URGENCY_LEVEL = some "high" →
      score_relevance candidate context weights0 now =
        .error "TypeError: unsupported operand type(s) for -: \x27datetime.datetime\x27 and \x27NoneType\x27") := by
  refine ⟨by simp [calculate_temporal_relevance, hts], ?_, ?_⟩
  · intro h
    exact score_relevance_ok_of candidate context weights0 now (Or.inr h)
  · intro h
    exact score_relevance_error_of candidate context weights0 now hts h

/-- A context whose urgency factor is "high". -/
noncomputable def sample_urgent_context : ScoringContext :=
  { query_text := "", query_tags := [], target_technologies := [], task_category := "",
    contextual_factors := [(ContextualFactor.URGENCY_LEVEL, "high")] }

theorem score_relevance_missing_timestamp_witness :
    sample_memory_candidate.timestamp = none ∧
    score_relevance sample_memory_candidate sample_urgent_context none 0 =
      .error "TypeError: unsupported operand type(s) for -: \x27datetime.datetime\x27 and \x27NoneType\x27" :=
  ⟨rfl,
   (score_relevance_missing_timestamp sample_memory_candidate sample_urgent_context none 0
     rfl).2.2 (by decide)⟩

/-! ### Bounds of the eight dimension scores -/

theorem calculate_temporal_relevance_bounds (candidate : MemoryCandidate)
    (context : ScoringContext) (now : Int)
    (hts : ∀ ts ∈ candidate.timestamp, ts ≤ now) :
    0 ≤ calculate_temporal_relevance candidate context now ∧
    calculate_temporal_relevance candidate context now ≤ 1 := by
  cases hc : candidate.timestamp with
  | none =>
    simp only [calculate_temporal_relevance, hc]
    norm_num
  | some ts =>
    have hd : (0 : ℤ) ≤ now - ts := by
      have := hts ts (by simp [hc])
      omega
    simp only [calculate_temporal_relevance, hc]
    by_cases hr : context.temporal_preference = some "recent"
    · rw [if_pos hr]
      constructor
      · exact (Real.exp_pos _).le
      · have h0 : (0 : ℝ) ≤ ((now - ts : ℤ) : ℝ) := by exact_mod_cast hd
        have hx : -(0.1) * ((now - ts : ℤ) : ℝ) / 30 ≤ 0 := by
          have hnn : (0 : ℝ) ≤ 0.1 * ((now - ts : ℤ) : ℝ) / 30 := by positivity
          linarith
        calc Real.exp (-(0.1) * ((now - ts : ℤ) : ℝ) / 30) ≤ Real.exp 0 :=
              Real.exp_le_exp.mpr hx
          _ = 1 := Real.exp_zero
    · rw [if_neg hr]
      by_cases hh : context.temporal_preference = some "historical"
      · rw [if_pos hh]
        by_cases h90 : 90 < now - ts
        · rw [if_pos h90]
          have h90r : (90 : ℝ) < ((now - ts : ℤ) : ℝ) := by exact_mod_cast h90
          have hq0 : (0 : ℝ) ≤ (((now - ts : ℤ) : ℝ) - 90) / 365 := by
            apply div_nonneg <;> linarith
          have hmin0 : (0 : ℝ) ≤ min 1 ((((now - ts : ℤ) : ℝ) - 90) / 365) :=
            le_min (by norm_num) hq0
          have hmin1 : min 1 ((((now - ts : ℤ) : ℝ) - 90) / 365) ≤ 1 := min_le_left _ _
          constructor <;> nlinarith
        · rw [if_neg h90]
          norm_num
      · rw [if_neg hh]
        split_ifs <;> norm_num

theorem calculate_tag_overlap_bounds (candidate : MemoryCandidate)
    (context : ScoringContext) :
    0 ≤ calculate_tag_overlap candidate context ∧
    calculate_tag_overlap candidate context ≤ 1 := by
  simp only [calculate_tag_overlap]
  by_cases h0 : (context.query_tags.isEmpty || candidate.tags.isEmpty) = true
  · rw [if_pos h0]
    norm_num
  · rw [if_neg h0]
    by_cases hU : (context.query_tags.map strToLower).toFinset ∪
        (candidate.tags.map strToLower).toFinset = ∅
    · rw [if_pos hU]
      norm_num
    · rw [if_neg hU]
      have hUpos : (0 : ℝ) < (((context.query_tags.map strToLower).toFinset ∪
          (candidate.tags.map strToLower).toFinset).card : ℝ) := by
        have : 0 < ((context.query_tags.map strToLower).toFinset ∪
            (candidate.tags.map strToLower).toFinset).card :=
          Finset.card_pos.mpr (Finset.nonempty_iff_ne_empty.mpr hU)
        exact_mod_cast this
      have hIU : ((((context.query_tags.map strToLower).toFinset ∩
          (candidate.tags.map strToLower).toFinset).card : ℕ) : ℝ) ≤
          (((context.query_tags.map strToLower).toFinset ∪
            (candidate.tags.map strToLower).toFinset).card : ℝ) := by
        exact_mod_cast Finset.card_le_card Finset.inter_subset_union
      have hj0 : (0 : ℝ) ≤ (((context.query_tags.map strToLower).toFinset ∩
          (candidate.tags.map strToLower).toFinset).card : ℝ) /
          (((context.query_tags.map strToLower).toFinset ∪
            (candidate.tags.map strToLower).toFinset).card : ℝ) :=
        div_nonneg (by positivity) hUpos.le
      have hj1 : (((context.query_tags.map strToLower).toFinset ∩
          (candidate.tags.map strToLower).toFinset).card : ℝ) /
          (((context.query_tags.map strToLower).toFinset ∪
            (candidate.tags.map strToLower).toFinset).card : ℝ) ≤ 1 :=
        (div_le_one hUpos).mpr hIU
      by_cases hC : (candidate.tags.map strToLower).toFinset = ∅
      · rw [if_pos hC]
        constructor <;> nlinarith
      · rw [if_neg hC]
        have hCpos : (0 : ℝ) < ((candidate.tags.map strToLower).toFinset.card : ℝ) := by
          have : 0 < (candidate.tags.map strToLower).toFinset.card :=
            Finset.card_pos.mpr (Finset.nonempty_iff_ne_empty.mpr hC)
          exact_mod_cast this
        have hIC : ((((context.query_tags.map strToLower).toFinset ∩
            (candidate.tags.map strToLower).toFinset).card : ℕ) : ℝ) ≤
            ((candidate.tags.map strToLower).toFinset.card : ℝ) := by
          exact_mod_cast Finset.card_le_card Finset.inter_subset_right
        have hp0 : (0 : ℝ) ≤ (((context.query_tags.map strToLower).toFinset ∩
            (candidate.tags.map strToLower).toFinset).card : ℝ) /
            ((candidate.tags.map strToLower).toFinset.card : ℝ) :=
          div_nonneg (by positivity) hCpos.le
        have hp1 : (((context.query_tags.map strToLower).toFinset ∩
            (candidate.tags.map strToLower).toFinset).card : ℝ) /
            ((candidate.tags.map strToLower).toFinset.card : ℝ) ≤ 1 :=
          (div_le_one hCpos).mpr hIC
        constructor <;> nlinarith

theorem metadata_pair_score_bounds (cv ev : MVal) :
    0 ≤ metadata_pair_score cv ev ∧ metadata_pair_score cv ev ≤ 1 := by
  cases ev with
  | list vs =>
    cases cv with
    | scalar v =>
      simp only [metadata_pair_score]
      split_ifs <;> norm_num
    | list cs => simp [metadata_pair_score]
  | scalar sv =>
    cases cv with
    | list cs =>
      simp only [metadata_pair_score]
      split_ifs <;> norm_num
    | scalar sc =>
      cases sv <;> cases sc <;> simp only [metadata_pair_score] <;> split_ifs <;> norm_num

theorem meta_fold_bounds (meta : List (String × MVal)) :
    ∀ (reqs : List (String × MVal)) (acc : ℝ),
      acc ≤ reqs.foldl (fun a kv =>
          match lookupKey meta kv.1 with
          | none => a
          | some cv => a + metadata_pair_score cv kv.2) acc ∧
      reqs.foldl (fun a kv =>
          match lookupKey meta kv.1 with
          | none => a
          | some cv => a + metadata_pair_score cv kv.2) acc ≤ acc + reqs.length := by
  intro reqs
  induction reqs with
  | nil => intro acc; simp
  | cons kv rest ih =>
    intro acc
    simp only [List.foldl, List.length_cons]
    cases hl : lookupKey meta kv.1 with
    | none =>
      rcases ih acc with ⟨h1, h2⟩
      constructor
      · exact h1
      · push_cast
        linarith
    | some cv =>
      rcases ih (acc + metadata_pair_score cv kv.2) with ⟨h1, h2⟩
      rcases metadata_pair_score_bounds cv kv.2 with ⟨hp0, hp1⟩
      constructor
      · linarith
      · push_cast
        linarith

theorem calculate_metadata_match_bounds (candidate : MemoryCandidate)
    (context : ScoringContext) :
    0 ≤ calculate_metadata_match candidate context ∧
    calculate_metadata_match candidate context ≤ 1 := by
  simp only [calculate_metadata_match]
  by_cases h0 : context.metadata_requirements.isEmpty = true
  · rw [if_pos h0]
    norm_num
  · rw [if_neg h0]
    by_cases hlen : context.metadata_requirements.length = 0
    · rw [if_pos hlen]
      norm_num
    · rw [if_neg hlen]
      rcases meta_fold_bounds candidate.metadata context.metadata_requirements 0 with ⟨h1, h2⟩
      have hpos : (0 : ℝ) < (context.metadata_requirements.length : ℝ) := by
        have : 0 < context.metadata_requirements.length := Nat.pos_of_ne_zero hlen
        exact_mod_cast this
      constructor
      · exact div_nonneg (by linarith) hpos.le
      · rw [div_le_one hpos]
        simpa using h2

theorem calculate_content_type_match_bounds (candidate : MemoryCandidate)
    (context : ScoringContext) :
    0 ≤ calculate_content_type_match candidate context ∧
    calculate_content_type_match candidate context ≤ 1 := by
  simp only [calculate_content_type_match]
  cases context.content_type_preference with
  | none => norm_num
  | some pref =>
    dsimp only
    by_cases hp : pref = ""
    · rw [if_pos hp]
      norm_num
    · rw [if_neg hp]
      by_cases he : ((lookupKey content_type_patterns pref).getD []).isEmpty = true
      · rw [if_pos he]
        norm_num
      · rw [if_neg he]
        constructor
        · exact le_min (by norm_num) (div_nonneg (by positivity) (by positivity))
        · exact min_le_left _ _

theorem calculate_technology_alignment_bounds (candidate : MemoryCandidate)
    (context : ScoringContext) :
    0 ≤ calculate_technology_alignment candidate context ∧
    calculate_technology_alignment candidate context ≤ 1 := by
  simp only [calculate_technology_alignment]
  by_cases h0 : context.target_technologies.isEmpty = true
  · rw [if_pos h0]
    norm_num
  · rw [if_neg h0]
    have hne : context.target_technologies ≠ [] := by
      intro hc
      rw [hc] at h0
      exact h0 rfl
    have hpos : (0 : ℝ) < (context.target_technologies.length : ℝ) := by
      have : 0 < context.target_technologies.length := List.length_pos.mpr hne
      exact_mod_cast this
    constructor
    · exact div_nonneg (by positivity) hpos.le
    · rw [div_le_one hpos]
      exact_mod_cast List.length_filter_le _ _

theorem calculate_contextual_similarity_bounds (candidate : MemoryCandidate)
    (context : ScoringContext) :
    0 ≤ calculate_contextual_similarity candidate context ∧
    calculate_contextual_similarity candidate context ≤ 1 := by
  simp only [calculate_contextual_similarity]
  refine ⟨le_min (by norm_num) ?_, min_le_left _ _⟩
  by_cases hf : context.contextual_factors ≠ []
  · rw [if_pos hf]
    cases h1 : lookupKey context.contextual_factors ContextualFactor.TASK_CATEGORY with
    | none =>
      cases h2 : lookupKey context.contextual_factors ContextualFactor.ERROR_CONTEXT with
      | none =>
        dsimp only
        norm_num
      | some v =>
        dsimp only
        split_ifs <;> norm_num
    | some tc =>
      cases h2 : lookupKey context.contextual_factors ContextualFactor.ERROR_CONTEXT with
      | none =>
        dsimp only
        split_ifs <;> norm_num
      | some v =>
        dsimp only
        split_ifs <;> norm_num
  · rw [if_neg hf]
    norm_num

theorem calculate_usage_frequency_bounds (candidate : MemoryCandidate) :
    0 ≤ calculate_usage_frequency candidate ∧
    calculate_usage_frequency candidate ≤ 1 := by
  simp only [calculate_usage_frequency]
  by_cases h : candidate.usage_count ≤ 0
  · rw [if_pos h]
    norm_num
  · rw [if_neg h]
    refine ⟨le_min (by norm_num) ?_, min_le_left _ _⟩
    have h1 : (1 : ℝ) ≤ (candidate.usage_count : ℝ) := by
      have : (1 : ℤ) ≤ candidate.usage_count := by omega
      exact_mod_cast this
    apply div_nonneg
    · apply Real.log_nonneg
      linarith
    · apply Real.log_nonneg
      norm_num

/-- C3: for a valid candidate (base similarity within [0,1], timestamp not
in the future when present) and any context whose urgency adjustment does
not hit the missing-timestamp bug, `score_relevance` under the default
weights succeeds, its clamped total score lies in [0,1], and each of the
eight dimension scores lies in [0,1]. -/
theorem score_relevance_bounds (candidate : MemoryCandidate) (context : ScoringContext)
    (now : Int)
    (hbase0 : 0 ≤ candidate.base_similarity_score)
    (hbase1 : candidate.base_similarity_score ≤ 1)
    (hts : ∀ ts ∈ candidate.timestamp, ts ≤ now)
    (hne : candidate.timestamp ≠ none ∨
      lookupKey context.contextual_factors ContextualFactor.URGENCY_LEVEL ≠ some "high") :
    ∃ sc, score_relevance candidate context none now = .ok sc ∧
      0 ≤ sc.total_score ∧ sc.total_score ≤ 1 ∧
      ∀ d ∈ sc.dimension_scores, 0 ≤ d.2 ∧ d.2 ≤ 1 := by
  simp only [score_relevance]
  obtain ⟨⟨ts', nb, np⟩, hr⟩ := apply_contextual_adjustments_ok candidate context now hne _
  rw [hr]
  refine ⟨_, rfl, le_min (by norm_num) (le_max_left _ _), min_le_left _ _, ?_⟩
  intro d hd
  simp only [List.mem_cons, List.not_mem_nil, or_false] at hd
  rcases hd with rfl | rfl | rfl | rfl | rfl | rfl | rfl | rfl
  · exact ⟨hbase0, hbase1⟩
  · exact calculate_temporal_relevance_bounds candidate context now hts
  · exact calculate_tag_overlap_bounds candidate context
  · exact calculate_metadata_match_bounds candidate context
  · exact calculate_content_type_match_bounds candidate context
  · exact calculate_technology_alignment_bounds candidate context
  · exact calculate_contextual_similarity_bounds candidate context
  · exact calculate_usage_frequency_bounds candidate

/-- A candidate with a high base similarity and a two-day-old timestamp. -/
noncomputable def sample_scored_candidate : MemoryCandidate :=
  { content := "", tags := [], metadata := [], timestamp := some (-2),
    content_hash := "", base_similarity_score := 0.9 }

theorem score_relevance_bounds_witness :
    (0 ≤ sample_scored_candidate.base_similarity_score ∧
     sample_scored_candidate.base_similarity_score ≤ 1 ∧
     (∀ ts ∈ sample_scored_candidate.timestamp, ts ≤ 0) ∧
     sample_scored_candidate.timestamp ≠ none) ∧
    ∃ sc, score_relevance sample_scored_candidate sample_plain_context none 0 = .ok sc ∧
      0 ≤ sc.total_score ∧ sc.total_score ≤ 1 ∧
      ∀ d ∈ sc.dimension_scores, 0 ≤ d.2 ∧ d.2 ≤ 1 :=
  ⟨⟨by norm_num [sample_scored_candidate], by norm_num [sample_scored_candidate],
    fun ts h => by simp [sample_scored_candidate] at h; omega,
    by simp [sample_scored_candidate]⟩,
   score_relevance_bounds sample_scored_candidate sample_plain_context 0
     (by norm_num [sample_scored_candidate]) (by norm_num [sample_scored_candidate])
     (fun ts h => by simp [sample_scored_candidate] at h; omega)
     (Or.inl (by simp [sample_scored_candidate]))⟩

end Agents
